import Mathlib

/-!
Verification development for the centrebowl 5-pin bowling system.

The definitions below are shallow embeddings of the Python sources:
  - `src/game/five_pin.py`   (class FivePinGame: scoring engine)
  - `src/machine_poll.py`    (class BowlingMachine: pin-machine controller)
  - `src/ball_sensor_daemon.py` (class BallSensorDaemon: debounced ball sensor)

Modelling conventions:
  - Python 5-element pin lists become the 5-field structure `PinVec`
    (index order left-two, left-three, centre-five, right-three, right-two;
    entry 1 = pin down, 0 = standing, exactly as in the source).
  - Wall-clock time (datetime.now, time.time) is passed in explicitly as a
    rational number of seconds.
  - Logging, pygame drawing, file saves and network sends mutate no game
    state and are omitted.  Note that in `next_frame` the source line
    "self.logger.logger.log_info(...)" (reached when a bowler finishes while
    others have frames left) would raise AttributeError in Python; the
    embedding records this as a raised-flag so callers skip the rest of the
    handler, and theorems about frame 10 restrict to the single-bowler case
    where that line is unreachable.
  - The embedding models a game constructed without optional game modes
    (the default "self.game_modes = \x7b\x7d" case), so every branch guarded
    by "if yyy in self.game_modes" is not taken and is omitted.
  - Python int() truncation toward zero on rationals is `pyInt`.
-/

/-- Python int() applied to a float: truncation toward zero. -/
def pyInt (q : ℚ) : ℤ := if 0 ≤ q then ⌊q⌋ else ⌈q⌉

/-- Fixed 5-slot pin vector, index order left-two, left-three, centre-five,
right-three, right-two.  Entries are the Python ints (1 = down, 0 = standing). -/
structure PinVec where
  p0 : ℕ
  p1 : ℕ
  p2 : ℕ
  p3 : ℕ
  p4 : ℕ
deriving DecidableEq, Repr

instance : Inhabited PinVec := ⟨⟨0, 0, 0, 0, 0⟩⟩

namespace PinVec

/-- sum(v) over the 5 slots, as in the Python source. -/
def sum (v : PinVec) : ℕ := v.p0 + v.p1 + v.p2 + v.p3 + v.p4

/-- The all-standing vector [0,0,0,0,0]. -/
def standing : PinVec := ⟨0, 0, 0, 0, 0⟩

/-- The all-down vector [1,1,1,1,1]. -/
def allDown : PinVec := ⟨1, 1, 1, 1, 1⟩

/-- "".join(str(p) for p in v) as used for the pattern lookup. -/
def patternString (v : PinVec) : String :=
  toString v.p0 ++ toString v.p1 ++ toString v.p2 ++ toString v.p3 ++ toString v.p4

end PinVec

/-- Per-pin values [2, 3, 5, 3, 2] (five_pin.py, self.pin_values). -/
def pin_values : List ℕ := [2, 3, 5, 3, 2]

/-- The symbol pattern table self.patterns of five_pin.py
(keys are the knocked pattern, 1 = knocked this throw). -/
def patterns (s : String) : Option String :=
  if s = "00011" then some "C\\O"
  else if s = "11000" then some "C/O"
  else if s = "01001" then some "A"
  else if s = "01111" then some "L"
  else if s = "11110" then some "R"
  else if s = "00100" then some "HP"
  else if s = "10100" then some "SL"
  else if s = "00101" then some "SR"
  else if s = "11111" then some "X"
  else if s = "00000" then some "-"
  else none

/-- pins_knocked as computed in process_ball: slot i is 1 when the pin was
standing before (pins_standing[i] == 0) and is down in the result
(pins_result[i] == 1). -/
def pins_knocked_of (standing result : PinVec) : PinVec :=
  let k : ℕ → ℕ → ℕ := fun s r => if s = 0 ∧ r = 1 then 1 else 0
  ⟨k standing.p0 result.p0, k standing.p1 result.p1, k standing.p2 result.p2,
   k standing.p3 result.p3, k standing.p4 result.p4⟩

/-- ball_score as computed in process_ball: sum of pin_values over newly
knocked pins. -/
def ball_score_of (standing result : PinVec) : ℕ :=
  let v : ℕ → ℕ → ℕ → ℕ := fun s r val => if s = 0 ∧ r = 1 then val else 0
  v standing.p0 result.p0 2 + v standing.p1 result.p1 3 + v standing.p2 result.p2 5 +
    v standing.p3 result.p3 3 + v standing.p4 result.p4 2

/-- One frame record of _create_empty_frames: three ball slots, three symbol
slots, per-ball pin state, and the pins-before snapshots. -/
structure Frame where
  balls : List (Option ℤ)
  symbols : List (Option String)
  pins : List (Option PinVec)
  pins_before : List (Option PinVec)
deriving DecidableEq, Repr

/-- A single empty frame as built by _create_empty_frames (the initial
pins_before[0] placeholder [0,0,0,0,0] is kept; slots 1 and 2 start as
placeholders modelled by none). -/
def emptyFrame : Frame :=
  { balls := [none, none, none]
    symbols := [none, none, none]
    pins := [none, none, none]
    pins_before := [some PinVec.standing, none, none] }

instance : Inhabited Frame := ⟨emptyFrame⟩

namespace Frame

def ball (f : Frame) (i : ℕ) : Option ℤ := (f.balls.getD i none)

def symbol (f : Frame) (i : ℕ) : Option String := (f.symbols.getD i none)

def setBall (f : Frame) (i : ℕ) (v : ℤ) : Frame :=
  { f with balls := f.balls.set i (some v) }

def setSymbol (f : Frame) (i : ℕ) (s : String) : Frame :=
  { f with symbols := f.symbols.set i (some s) }

def setPins (f : Frame) (i : ℕ) (v : PinVec) : Frame :=
  { f with pins := f.pins.set i (some v) }

def setPinsBefore (f : Frame) (i : ℕ) (v : PinVec) : Frame :=
  { f with pins_before := f.pins_before.set i (some v) }

end Frame

/-- Per-bowler record (the bowler dict of five_pin.py, base-game fields). -/
structure Bowler where
  name : String
  frames : List Frame
  frame_totals : List (Option ℤ)
  current_frame : ℕ
  current_ball : ℕ
  total_score : ℤ
  pins_standing : PinVec
deriving DecidableEq, Repr

/-- A fresh bowler as built in the FivePinGame constructor. -/
def mkBowler (name : String) : Bowler :=
  { name := name
    frames := List.replicate 10 emptyFrame
    frame_totals := List.replicate 10 none
    current_frame := 0
    current_ball := 0
    total_score := 0
    pins_standing := PinVec.standing }

instance : Inhabited Bowler := ⟨mkBowler "Unknown"⟩

/-- Session mode: fixed game count or time-boxed. -/
inductive SessionMode where
  | games
  | time
deriving DecidableEq, Repr

/-- session_config dict (mode, total_games, total_time_minutes,
frames_per_turn). -/
structure SessionConfig where
  mode : SessionMode
  total_games : ℕ
  total_time_minutes : ℚ
  frames_per_turn : ℕ
deriving DecidableEq, Repr

/-- The default session_config of the constructor. -/
def defaultSessionConfig : SessionConfig :=
  { mode := SessionMode.games, total_games := 1, total_time_minutes := 0,
    frames_per_turn := 1 }

/-- Game/session state of class FivePinGame (state-bearing fields only;
fonts, logger, parent, save paths and network client carry no game state).
The raised flag models an uncaught Python exception escaping the current
handler (see the note on next_frame in the file header). -/
structure FivePinGame where
  bowlers : List Bowler
  current_bowler_index : ℕ
  session_config : SessionConfig
  current_game_number : ℕ
  session_start_time : ℚ
  session_expired : Bool
  session_complete : Bool
  between_games : Bool
  next_game_timer : Option ℚ
  time_warning_given : List String
  game_over_pause : Bool
  game_over_pause_start : Option ℚ
  game_over_pause_duration : ℚ
  hold_active : Bool
  raised : Bool
deriving DecidableEq, Repr

/-- FivePinGame.__init__ for a list of bowler names, default session config,
no game modes (started at wall-clock time now). -/
def mkGame (names : List String) (now : ℚ) : FivePinGame :=
  { bowlers := names.map mkBowler
    current_bowler_index := 0
    session_config := defaultSessionConfig
    current_game_number := 1
    session_start_time := now
    session_expired := false
    session_complete := false
    between_games := false
    next_game_timer := none
    time_warning_given := []
    game_over_pause := false
    game_over_pause_start := none
    game_over_pause_duration := 60
    hold_active := false
    raised := false }

instance : Inhabited FivePinGame := ⟨mkGame [] 0⟩

namespace FivePinGame

/-- self.current_bowler (the bowler dict at current_bowler_index). -/
def current_bowler (g : FivePinGame) : Bowler :=
  g.bowlers.getD g.current_bowler_index default

/-- Write back the current bowler (Python mutates the dict in place). -/
def setCurrentBowler (g : FivePinGame) (b : Bowler) : FivePinGame :=
  { g with bowlers := g.bowlers.set g.current_bowler_index b }

end FivePinGame

/-! ## calculate_score

First pass of calculate_score: populate bonus balls into strike/spare
frames.  The Python loop walks frames 0..9, breaking at the first frame
whose first ball is None; when it processes frame i it reads frame i and
the frames after i, which at that point are still untouched by this run
(the loop only ever writes to the frame currently being processed).  The
head/tail recursion below is therefore a faithful rendering: the written
head is computed from the original tail, and the tail is then processed
recursively.  The Python guard "frame_num < 9" of the spare branch holds
exactly when the processed frame is not the last of the 10, i.e. when the
remaining list is nonempty. -/

/-- The bonus balls collected for a strike frame: the next thrown ball
scores found walking the following frames in order, capped at 2. -/
def strike_bonus_balls (rest : List Frame) : List ℤ :=
  ((rest.flatMap (fun f => f.balls)).filterMap id).take 2

/-- The bonus ball collected for a spare frame: the first ball of the next
frame whose first ball has been recorded. -/
def spare_bonus_ball (rest : List Frame) : Option ℤ :=
  rest.findSome? (fun f => f.ball 0)

/-- First strike back-fill write of calculate_score pass 1 (slot 1). -/
def fillStrike1 (f : Frame) (bonus : List ℤ) : Frame :=
  if 1 ≤ bonus.length ∧ f.ball 1 = none then
    (f.setBall 1 (bonus.getD 0 0)).setSymbol 1 (toString (bonus.getD 0 0))
  else f

/-- Second strike back-fill write of calculate_score pass 1 (slot 2). -/
def fillStrike2 (f : Frame) (bonus : List ℤ) : Frame :=
  if 2 ≤ bonus.length ∧ f.ball 2 = none then
    (f.setBall 2 (bonus.getD 1 0)).setSymbol 2 (toString (bonus.getD 1 0))
  else f

/-- The strike back-fill writes of calculate_score pass 1 on one frame
(the two sequential conditional writes of the source). -/
def fillStrike (f : Frame) (bonus : List ℤ) : Frame :=
  fillStrike2 (fillStrike1 f bonus) bonus

/-- Pass 1 of calculate_score applied to one frame, given the frames that
follow it. -/
def fillFrame (f : Frame) (rest : List Frame) : Frame :=
  if f.symbol 0 = some "X" then
    if f.ball 1 = none ∨ f.ball 2 = none then fillStrike f (strike_bonus_balls rest)
    else f
  else if f.symbol 1 = some "/" then
    if rest ≠ [] ∧ f.ball 2 = none then
      match spare_bonus_ball rest with
      | some v => (f.setBall 2 v).setSymbol 2 (toString v)
      | none => f
    else f
  else f

/-- Pass 1 of calculate_score over the frame list (break at the first frame
with no first ball). -/
def calc_pass1 : List Frame → List Frame
  | [] => []
  | f :: rest =>
    if f.ball 0 = none then f :: rest
    else fillFrame f rest :: calc_pass1 rest

/-- sum(score for score in frame.balls if score is not None). -/
def frameScore (f : Frame) : ℤ := (f.balls.filterMap id).sum

/-- Pass 2 of calculate_score: walk the frames accumulating a running
total, overwriting frame_totals until the first frame with no first ball
(later totals keep their previous values, as in the source).  Returns the
new frame_totals list and the final running total. -/
def calc_pass2 : List Frame → List (Option ℤ) → ℤ → List (Option ℤ) × ℤ
  | [], olds, acc => (olds, acc)
  | f :: rest, olds, acc =>
    if f.ball 0 = none then (olds, acc)
    else
      let acc' := acc + frameScore f
      let r := calc_pass2 rest olds.tail acc'
      (some acc' :: r.1, r.2)

/-- calculate_score on one bowler record: bonus back-fill, cumulative
totals, and total_score. -/
def calculate_score_bowler (b : Bowler) : Bowler :=
  let fs := calc_pass1 b.frames
  let r := calc_pass2 fs b.frame_totals 0
  { b with frames := fs, frame_totals := r.1, total_score := r.2 }

/-- self.calculate_score() (runs on the current bowler). -/
def calculate_score (g : FivePinGame) : FivePinGame :=
  g.setCurrentBowler (calculate_score_bowler g.current_bowler)

/-! ## process_ball and frame advancement -/

/-- self.reset_pins(): current bowler's pins back to all standing (the
pin-area / ball-button UI refreshes carry no game state). -/
def reset_pins (g : FivePinGame) : FivePinGame :=
  let b := g.current_bowler
  g.setCurrentBowler { b with pins_standing := PinVec.standing }

/-- self.start_between_games_timer(). -/
def start_between_games_timer (now : ℚ) (g : FivePinGame) : FivePinGame :=
  { g with between_games := true, next_game_timer := some now }

/-- self.handle_game_complete(): archive the game (file/network side
effects omitted), start the game-over pause, then either finish the
session or move to the next game. -/
def handle_game_complete (now : ℚ) (g : FivePinGame) : FivePinGame :=
  let g := { g with game_over_pause := true, game_over_pause_start := some now,
                    game_over_pause_duration := 60 }
  match g.session_config.mode with
  | SessionMode.games =>
    if g.session_config.total_games ≤ g.current_game_number then
      { g with session_complete := true }
    else
      start_between_games_timer now { g with current_game_number := g.current_game_number + 1 }
  | SessionMode.time =>
    let elapsed := (now - g.session_start_time) / 60
    if g.session_config.total_time_minutes ≤ elapsed then
      { g with session_expired := true }
    else
      start_between_games_timer now { g with current_game_number := g.current_game_number + 1 }

/-- self.next_frame(): advance the current bowler one frame, reset pins,
then either finish the game (all bowlers done) or rotate the bowler to the
back of the queue.  When the bowler is finished but others are not, the
Python source hits "self.logger.logger.log_info(...)" which raises
AttributeError (logging.Logger has no log_info); this is modelled by
setting the raised flag, with the rotation statements after that line
never executing. -/
def next_frame (now : ℚ) (g : FivePinGame) : FivePinGame :=
  let i := g.current_bowler_index
  let b := g.current_bowler
  let b := { b with current_frame := b.current_frame + 1, current_ball := 0 }
  let g := g.setCurrentBowler b
  let g := reset_pins g
  if 10 ≤ b.current_frame then
    if g.bowlers.all (fun x => 10 ≤ x.current_frame) then
      handle_game_complete now g
    else
      { g with raised := true }
  else
    { g with bowlers := (g.bowlers.eraseIdx i) ++ [g.current_bowler],
             current_bowler_index := 0 }

/-- In-place update of bowler["frames"][i] (Python mutates the frame dict
inside the list). -/
def updFrame (b : Bowler) (i : ℕ) (h : Frame → Frame) : Bowler :=
  { b with frames := b.frames.set i (h (b.frames.getD i default)) }

/-- str(ball_score) if ball_score > 0 else "-". -/
def numericSymbol (score : ℕ) : String :=
  if 0 < score then toString score else "-"

/-- self.process_ball(pins_result) for a game without optional game modes
(every branch guarded by membership in self.game_modes is not taken).
Wall-clock time now is only consulted by handle_game_complete. -/
def process_ball (now : ℚ) (g : FivePinGame) (pins_result : PinVec) : FivePinGame :=
  if g.session_expired ∨ g.session_complete ∨ g.between_games then g
  else if g.hold_active then g
  else
    let b := g.current_bowler
    if 10 ≤ b.current_frame then g
    else
      let cf := b.current_frame
      let cb := b.current_ball
      let b := updFrame b cf (fun f => f.setPinsBefore cb b.pins_standing)
      let pins_knocked := pins_knocked_of b.pins_standing pins_result
      let score := ball_score_of b.pins_standing pins_result
      let b := { b with pins_standing := pins_result }
      let b := updFrame b cf (fun f => (f.setBall cb (score : ℤ)).setPins cb pins_result)
      -- ball-index classification
      if cb = 0 ∧ pins_knocked.sum = 5 then
        -- strike on ball 1: record the symbol; outside the 10th frame the
        -- frame ends immediately
        let b := updFrame b cf (fun f => f.setSymbol 0 "X")
        if cf ≠ 9 then
          let g := (g.setCurrentBowler b)
          let g := next_frame now g
          if g.raised then g else calculate_score g
        else
          -- 10th frame: fall through to the common tail with symbol "X"
          let b := updFrame b cf (fun f => f.setSymbol cb "X")
          let b := { b with current_ball := b.current_ball + 1 }
          let g := g.setCurrentBowler b
          let all_pins_down := b.pins_standing.sum = 5
          if 3 ≤ b.current_ball then
            let g := next_frame now g
            if g.raised then g else calculate_score g
          else
            let g := if (b.current_ball = 1 ∧ all_pins_down) ∨
                        (b.current_ball = 2 ∧ all_pins_down) then reset_pins g else g
            calculate_score g
      else if cb = 1 ∧ b.pins_standing.sum = 5 then
        -- spare on ball 2
        let b := updFrame b cf (fun f => f.setSymbol 1 "/")
        if cf = 9 then
          let b := { b with current_ball := 2 }
          let g := g.setCurrentBowler b
          let g := reset_pins g
          calculate_score g
        else
          let g := g.setCurrentBowler b
          let g := calculate_score g
          next_frame now g
      else
        -- no early return: compute the symbol, record it, then the common
        -- frame-advance decision
        let symbol :=
          if cb = 0 then
            (patterns pins_knocked.patternString).getD (numericSymbol score)
          else if cb = 2 ∧ cf = 9 then
            if pins_knocked.sum = 5 then "X"
            else if b.pins_standing.sum = 0 then
              (patterns pins_knocked.patternString).getD (numericSymbol score)
            else numericSymbol score
          else numericSymbol score
        let b := updFrame b cf (fun f => f.setSymbol cb symbol)
        let b := { b with current_ball := b.current_ball + 1 }
        let g := g.setCurrentBowler b
        let all_pins_down := b.pins_standing.sum = 5
        if cf = 9 then
          if 3 ≤ b.current_ball then
            let g := next_frame now g
            if g.raised then g else calculate_score g
          else
            let g := if (b.current_ball = 1 ∧ all_pins_down) ∨
                        (b.current_ball = 2 ∧ all_pins_down) then reset_pins g else g
            calculate_score g
        else
          if all_pins_down ∨ 3 ≤ b.current_ball then
            let g := next_frame now g
            if g.raised then g else calculate_score g
          else
            calculate_score g

/-! ## get_scroll_message -/

/-- Python divmod-based "m:ss" clock text used for the between-games
countdown. -/
def clockText (remaining : ℤ) : String :=
  let mins := remaining / 60
  let secs := remaining % 60
  toString mins ++ ":" ++ (if secs < 10 then "0" ++ toString secs else toString secs)

/-- The time-mode warning loop of get_scroll_message: first interval in
[30, 25, 20, 15, 10, 5] bracketing remaining_mins whose warning was not yet
given; records the warning key and returns the message. -/
def scroll_time_warnings (remaining_mins : ℚ) (g : FivePinGame) :
    List ℤ → Option (FivePinGame × String)
  | [] => none
  | i :: rest =>
    if remaining_mins ≤ (i : ℚ) ∧ (i : ℚ) - 5 < remaining_mins then
      if "warning_" ++ toString i ∈ g.time_warning_given then
        scroll_time_warnings remaining_mins g rest
      else
        some ({ g with time_warning_given :=
                  g.time_warning_given ++ ["warning_" ++ toString i] },
          "You have " ++ toString (pyInt remaining_mins) ++
            " minutes left to play. Contact front desk if you want to add more time.")
    else scroll_time_warnings remaining_mins g rest

/-- The between-games countdown message of get_scroll_message (none when
the branch falls through without returning). -/
def between_games_msg (now : ℚ) (g : FivePinGame) : Option String :=
  if g.between_games then
    match g.next_game_timer with
    | some t =>
      if 0 < pyInt (300 - (now - t)) then
        some ("Next game starts in " ++ clockText (pyInt (300 - (now - t))))
      else none
    | none => none
  else none

/-- remaining_mins of the time-mode branch of get_scroll_message. -/
def remaining_mins_of (now : ℚ) (g : FivePinGame) : ℚ :=
  g.session_config.total_time_minutes - (now - g.session_start_time) / 60

/-- The part of get_scroll_message after the game-over-pause block
(session status checks and the default welcome message). -/
def scroll_message_rest (now : ℚ) (g : FivePinGame) : FivePinGame × String :=
  if g.session_complete then (g, "Please see front desk")
  else if g.session_expired then
    (g, "Time has expired! Please see front desk to add more time. Game will close in 5 min.")
  else
    match between_games_msg now g with
    | some m => (g, m)
    | none =>
      match g.session_config.mode with
      | SessionMode.games =>
        if g.current_game_number = g.session_config.total_games then
          (g, "Reminder: This is your last game")
        else (g, "Welcome to Centrebowl! Good luck!")
      | SessionMode.time =>
        if remaining_mins_of now g ≤ 30 then
          match scroll_time_warnings (remaining_mins_of now g) g [30, 25, 20, 15, 10, 5] with
          | some r => r
          | none => (g, "Welcome to Centrebowl! Good luck!")
        else (g, "Welcome to Centrebowl! Good luck!")

/-- The session transition performed inside get_scroll_message when the
game-over pause has run out (same branching as the tail of
handle_game_complete). -/
def game_over_transition (now : ℚ) (g : FivePinGame) : FivePinGame :=
  match g.session_config.mode with
  | SessionMode.games =>
    if g.session_config.total_games ≤ g.current_game_number then
      { g with session_complete := true }
    else
      start_between_games_timer now { g with current_game_number := g.current_game_number + 1 }
  | SessionMode.time =>
    if g.session_config.total_time_minutes ≤ (now - g.session_start_time) / 60 then
      { g with session_expired := true }
    else
      start_between_games_timer now { g with current_game_number := g.current_game_number + 1 }

/-- self.get_scroll_message(): not a pure query.  When the game-over pause
has run out it clears the pause and performs the session transition (mark
complete/expired, or advance the game number and start the between-games
timer) before picking the message from the updated state. -/
def get_scroll_message (now : ℚ) (g : FivePinGame) : FivePinGame × String :=
  if g.game_over_pause then
    match g.game_over_pause_start with
    | some t0 =>
      if 0 < pyInt (g.game_over_pause_duration - (now - t0)) then
        (g, "Game Over! Thanks for Playing! Screen will close in " ++
          toString (pyInt (g.game_over_pause_duration - (now - t0))) ++
          " seconds, then you can start the next game when ready!")
      else
        scroll_message_rest now
          (game_over_transition now { g with game_over_pause := false })
    | none => scroll_message_rest now g
  else scroll_message_rest now g

/-! ## BowlingMachine (machine_poll.py)

The analog scan of `_detect_pins_down` repeatedly reads the five pin
sensors for up to 3 seconds; its net effect on the control dict is fully
determined by which pin sensors ever read at or above the 4 V threshold
while that pin was still a candidate.  The embedding abstracts the scan by
that observation: `sensed` records, per pin slot, whether its sensor
reported the pin knocked at some point in the detection window (1 = yes).
Each candidate pin (control slot 1) that is sensed moves to 0 exactly once
and is counted once, as in the source loop. -/

/-- Control-slot seeding and scan outcome of _detect_pins_down.
Returns the final control vector (1 = still standing, 0 = down) and
pins_knocked, the number of slots newly moved to 0. -/
def detect_pins_down (control sensed : PinVec) : PinVec × ℕ :=
  let hit : ℕ → ℕ → ℕ := fun c s => if s = 1 ∧ c ≠ 0 then 0 else c
  let control' : PinVec :=
    ⟨hit control.p0 sensed.p0, hit control.p1 sensed.p1, hit control.p2 sensed.p2,
     hit control.p3 sensed.p3, hit control.p4 sensed.p4⟩
  let cnt : ℕ → ℕ → ℕ := fun c s => if s = 1 ∧ c ≠ 0 then 1 else 0
  (control', cnt control.p0 sensed.p0 + cnt control.p1 sensed.p1 + cnt control.p2 sensed.p2 +
    cnt control.p3 sensed.p3 + cnt control.p4 sensed.p4)

/-- BowlingMachine._process_ball_throw, abstracted over the scan outcome.
Input: the controller's pins_standing before the throw (1 = down) and the
sensed vector of the scan.  Output: the returned pin-state vector and the
controller's pins_standing afterwards (reset_pins sets the internal state
to all standing in the all-down branch; the zero-knocked branch leaves it
untouched).  Actuator pulses and the machine-pin wait do not affect the
pin state. -/
def process_ball_throw (pins_standing sensed : PinVec) : PinVec × PinVec :=
  let seed : ℕ → ℕ := fun p => if p = 0 then 1 else 0
  let control : PinVec :=
    ⟨seed pins_standing.p0, seed pins_standing.p1, seed pins_standing.p2,
     seed pins_standing.p3, seed pins_standing.p4⟩
  let r := detect_pins_down control sensed
  let control' := r.1
  let pins_knocked := r.2
  if pins_knocked = 0 then (PinVec.standing, pins_standing)
  else if control'.p0 = 0 ∧ control'.p1 = 0 ∧ control'.p2 = 0 ∧ control'.p3 = 0 ∧
      control'.p4 = 0 then
    (PinVec.allDown, PinVec.standing)
  else
    let flip : ℕ → ℕ := fun c => if c = 0 then 1 else 0
    let newStanding : PinVec :=
      ⟨flip control'.p0, flip control'.p1, flip control'.p2, flip control'.p3, flip control'.p4⟩
    (newStanding, newStanding)

/-! ## SensorBridge suspend/resume (machine_poll.py _handle_ball_detected) -/

/-- A control-queue message (the action field of the put dict). -/
inductive ControlAction where
  | suspend
  | resume
deriving DecidableEq, Repr

/-- The guard flags consulted before throw processing, plus whether a
control queue is configured. -/
structure BridgeCtx where
  active_game : Bool
  session_expired : Bool
  session_complete : Bool
  hold_active : Bool
  control_queue : Bool
deriving DecidableEq, Repr

/-- The sequence of control-queue messages emitted by one run of
_handle_ball_detected.  The throw resolution and scoring inside the try
block is a fallible computation, passed in as an Except value; whether it
succeeds or raises, the only control-queue traffic is the suspend before
the try block and the resume in the finally block (the except clause just
logs).  Emissions happen only when a control queue is configured. -/
def handle_ball_detected_controls (ctx : BridgeCtx) (resolution : Except String PinVec) :
    List ControlAction :=
  if ¬ctx.active_game ∨ ctx.session_expired ∨ ctx.session_complete ∨ ctx.hold_active then []
  else
    let pre := if ctx.control_queue then [ControlAction.suspend] else []
    let body : List ControlAction :=
      match resolution with
      | Except.ok _ => []
      | Except.error _ => []
    let fin := if ctx.control_queue then [ControlAction.resume] else []
    pre ++ body ++ fin

/-! ## BallSensorDaemon debounce (ball_sensor_daemon.py run loop) -/

/-- Mutable loop state of BallSensorDaemon.run: the previous GPIO reading
and the time of the last accepted detection. -/
structure SensorState where
  last_state : ℕ
  last_detection : Option ℚ
deriving DecidableEq, Repr

/-- The debounce acceptance test: no prior detection, or at least
debounce_ms (500 ms) elapsed since it. -/
def debounce_ok (last_detection : Option ℚ) (t : ℚ) : Bool :=
  match last_detection with
  | none => true
  | some d => decide (500 ≤ (t - d) * 1000)

/-- One iteration of the daemon polling loop on a (timestamp, gpio level)
sample: a rising edge passing the debounce test publishes a ball_detected
event with that timestamp and moves the debounce window; a rejected edge
is discarded and moves nothing. -/
def sensor_step (st : SensorState) (sample : ℚ × ℕ) : SensorState × List ℚ :=
  if sample.2 = 1 ∧ st.last_state = 0 then
    if debounce_ok st.last_detection sample.1 then
      ({ last_state := sample.2, last_detection := some sample.1 }, [sample.1])
    else ({ st with last_state := sample.2 }, [])
  else ({ st with last_state := sample.2 }, [])

/-- The daemon loop over a finite sample trace, collecting the published
ball_detected timestamps in order. -/
def sensor_run (st : SensorState) : List (ℚ × ℕ) → SensorState × List ℚ
  | [] => (st, [])
  | s :: rest =>
    let r := sensor_step st s
    let r2 := sensor_run r.1 rest
    (r2.1, r.2 ++ r2.2)

/-- The turn-relevant projection of a bowler record: current frame index,
current ball index and the live pins-standing snapshot. -/
def bowlerTurnState (b : Bowler) : ℕ × ℕ × PinVec :=
  (b.current_frame, b.current_ball, b.pins_standing)

/-! # Theorems

Helper lemmas first, then one theorem per claim (with witnesses and
counterexamples). -/

theorem getD_set_ne {α : Type} (l : List α) (i j : ℕ) (x d : α) (h : i ≠ j) :
    (l.set i x).getD j d = l.getD j d := by
  simp [List.getD_eq_getElem?_getD, List.getElem?_set_ne h]

theorem getD_set_self {α : Type} (l : List α) (i : ℕ) (x d : α) (h : i < l.length) :
    (l.set i x).getD i d = x := by
  simp [List.getD_eq_getElem?_getD, List.getElem?_set_eq_of_lt x h]

@[simp] theorem Frame.ball_setSymbol (f : Frame) (i : ℕ) (s : String) (j : ℕ) :
    (f.setSymbol i s).ball j = f.ball j := rfl

@[simp] theorem Frame.symbol_setBall (f : Frame) (i : ℕ) (v : ℤ) (j : ℕ) :
    (f.setBall i v).symbol j = f.symbol j := rfl

theorem Frame.ball_setBall_ne (f : Frame) (i : ℕ) (v : ℤ) (j : ℕ) (h : i ≠ j) :
    (f.setBall i v).ball j = f.ball j := by
  simp [Frame.setBall, Frame.ball, List.getD_eq_getElem?_getD, List.getElem?_set_ne h]

theorem Frame.symbol_setSymbol_ne (f : Frame) (i : ℕ) (s : String) (j : ℕ) (h : i ≠ j) :
    (f.setSymbol i s).symbol j = f.symbol j := by
  simp [Frame.setSymbol, Frame.symbol, List.getD_eq_getElem?_getD, List.getElem?_set_ne h]

theorem Frame.ball_setBall_self (f : Frame) (i : ℕ) (v : ℤ) (h : i < f.balls.length) :
    (f.setBall i v).ball i = some v := by
  simp [Frame.setBall, Frame.ball, List.getD_eq_getElem?_getD, List.getElem?_set_eq_of_lt _ h]

@[simp] theorem Frame.ball0_setBall1 (f : Frame) (v : ℤ) : (f.setBall 1 v).ball 0 = f.ball 0 :=
  Frame.ball_setBall_ne f 1 v 0 (by omega)

@[simp] theorem Frame.ball0_setBall2 (f : Frame) (v : ℤ) : (f.setBall 2 v).ball 0 = f.ball 0 :=
  Frame.ball_setBall_ne f 2 v 0 (by omega)

@[simp] theorem Frame.ball1_setBall2 (f : Frame) (v : ℤ) : (f.setBall 2 v).ball 1 = f.ball 1 :=
  Frame.ball_setBall_ne f 2 v 1 (by omega)

@[simp] theorem Frame.ball2_setBall1 (f : Frame) (v : ℤ) : (f.setBall 1 v).ball 2 = f.ball 2 :=
  Frame.ball_setBall_ne f 1 v 2 (by omega)

@[simp] theorem Frame.symbol0_setSymbol1 (f : Frame) (s : String) :
    (f.setSymbol 1 s).symbol 0 = f.symbol 0 :=
  Frame.symbol_setSymbol_ne f 1 s 0 (by omega)

@[simp] theorem Frame.symbol0_setSymbol2 (f : Frame) (s : String) :
    (f.setSymbol 2 s).symbol 0 = f.symbol 0 :=
  Frame.symbol_setSymbol_ne f 2 s 0 (by omega)

@[simp] theorem Frame.symbol1_setSymbol2 (f : Frame) (s : String) :
    (f.setSymbol 2 s).symbol 1 = f.symbol 1 :=
  Frame.symbol_setSymbol_ne f 2 s 1 (by omega)

@[simp] theorem Frame.balls_length_setSymbol (f : Frame) (i : ℕ) (s : String) :
    (f.setSymbol i s).balls.length = f.balls.length := rfl

@[simp] theorem Frame.balls_length_setBall (f : Frame) (i : ℕ) (v : ℤ) :
    (f.setBall i v).balls.length = f.balls.length := by
  simp [Frame.setBall]

theorem fillStrike_ball0 (f : Frame) (B : List ℤ) : (fillStrike f B).ball 0 = f.ball 0 := by
  unfold fillStrike fillStrike2 fillStrike1
  split <;> split <;> simp_all

theorem fillStrike_symbol0 (f : Frame) (B : List ℤ) :
    (fillStrike f B).symbol 0 = f.symbol 0 := by
  unfold fillStrike fillStrike2 fillStrike1
  split <;> split <;> simp_all

theorem fillStrike_balls_length (f : Frame) (B : List ℤ) :
    (fillStrike f B).balls.length = f.balls.length := by
  unfold fillStrike fillStrike2 fillStrike1
  split <;> split <;> simp_all

theorem fillFrame_ball0 (f : Frame) (rest : List Frame) :
    (fillFrame f rest).ball 0 = f.ball 0 := by
  unfold fillFrame
  split
  · split
    · exact fillStrike_ball0 f _
    · rfl
  · split
    · split
      · split <;> simp
      · rfl
    · rfl

theorem fillFrame_balls_length (f : Frame) (rest : List Frame) :
    (fillFrame f rest).balls.length = f.balls.length := by
  unfold fillFrame
  split
  · split
    · exact fillStrike_balls_length f _
    · rfl
  · split
    · split
      · split <;> simp
      · rfl
    · rfl

theorem calc_pass1_length (l : List Frame) : (calc_pass1 l).length = l.length := by
  induction l with
  | nil => rfl
  | cons f rest ih =>
    unfold calc_pass1
    split
    · rfl
    · simp [ih]

theorem calc_pass1_map_ball0 (l : List Frame) :
    (calc_pass1 l).map (fun f => f.ball 0) = l.map (fun f => f.ball 0) := by
  induction l with
  | nil => rfl
  | cons f rest ih =>
    unfold calc_pass1
    split
    · rfl
    · simp [ih, fillFrame_ball0]

theorem findSome?_congr_map {α β : Type} (p : α → Option β) (l₁ l₂ : List α)
    (h : l₁.map p = l₂.map p) : l₁.findSome? p = l₂.findSome? p := by
  induction l₁ generalizing l₂ with
  | nil =>
    cases l₂ with
    | nil => rfl
    | cons b bs => simp at h
  | cons a as ih =>
    cases l₂ with
    | nil => simp at h
    | cons b bs =>
      simp only [List.map_cons, List.cons.injEq] at h
      rw [List.findSome?_cons, List.findSome?_cons, h.1]
      cases hpb : p b with
      | none => exact ih bs h.2
      | some v => rfl

theorem spare_bonus_ball_calc_pass1 (l : List Frame) :
    spare_bonus_ball (calc_pass1 l) = spare_bonus_ball l := by
  unfold spare_bonus_ball
  exact findSome?_congr_map _ _ _ (by
    have h := calc_pass1_map_ball0 l
    simpa [Frame.ball] using h)

theorem calc_pass1_ne_nil_iff (l : List Frame) : calc_pass1 l ≠ [] ↔ l ≠ [] := by
  constructor
  · intro h hl
    exact h (by simp [hl, calc_pass1])
  · intro h hl
    have := calc_pass1_length l
    rw [hl] at this
    exact h (List.length_eq_zero.mp this.symm)

theorem filterMap_ne_nil_of_ball0 (f : Frame) (v : ℤ) (h : f.ball 0 = some v) :
    f.balls.filterMap id ≠ [] := by
  cases hb : f.balls with
  | nil => simp [Frame.ball, hb] at h
  | cons b t =>
    have hbv : b = some v := by simpa [Frame.ball, hb] using h
    simp [hbv]

theorem ball0_eq_none_of_all_none (f : Frame) (h : ∀ a ∈ f.balls, a = none) :
    f.ball 0 = none := by
  rw [Frame.ball, List.getD_eq_getElem?_getD]
  cases hb : f.balls[0]? with
  | none => rfl
  | some b =>
    have hbm : b ∈ f.balls := List.getElem?_mem hb
    simp [h b hbm]

theorem fillFrame_eq_self_of_no_balls (f : Frame) (rest : List Frame)
    (h : (rest.flatMap (fun x => x.balls)).filterMap id = []) :
    fillFrame f rest = f := by
  have hb : strike_bonus_balls rest = [] := by
    unfold strike_bonus_balls
    rw [h]
    rfl
  have hs : spare_bonus_ball rest = none := by
    unfold spare_bonus_ball
    rw [List.findSome?_eq_none_iff]
    intro x hx
    refine ball0_eq_none_of_all_none x ?_
    intro a ha
    cases hao : a with
    | none => rfl
    | some w =>
      exfalso
      have hmem : w ∈ (rest.flatMap (fun x => x.balls)).filterMap id := by
        rw [List.mem_filterMap]
        exact ⟨a, List.mem_flatMap.mpr ⟨x, hx, ha⟩, by rw [hao]; rfl⟩
      rw [h] at hmem
      simp at hmem
  unfold fillFrame
  split
  · split
    · rw [hb]
      unfold fillStrike fillStrike2 fillStrike1
      simp
    · rfl
  · split
    · split
      · rw [hs]
      · rfl
    · rfl

theorem calc_pass1_eq_self_of_nn (l : List Frame)
    (h : ((l.flatMap (fun f => f.balls)).filterMap id).length ≤ 1) :
    calc_pass1 l = l := by
  induction l with
  | nil => rfl
  | cons f rest ih =>
    unfold calc_pass1
    split
    · rfl
    · rename_i h0
      obtain ⟨v, hv⟩ := Option.ne_none_iff_exists'.mp h0
      have hhead : 0 < (f.balls.filterMap id).length :=
        List.length_pos.mpr (filterMap_ne_nil_of_ball0 f v hv)
      have hsplit : ((f :: rest).flatMap (fun x => x.balls)).filterMap id =
          f.balls.filterMap id ++ (rest.flatMap (fun x => x.balls)).filterMap id := by
        simp [List.flatMap_cons, List.filterMap_append]
      rw [hsplit, List.length_append] at h
      have hrest0 : ((rest.flatMap (fun x => x.balls)).filterMap id).length = 0 := by omega
      have hrestnil : (rest.flatMap (fun x => x.balls)).filterMap id = [] :=
        List.length_eq_zero.mp hrest0
      rw [fillFrame_eq_self_of_no_balls f rest hrestnil, ih (by omega)]

theorem Frame.setBall_setBall_same (f : Frame) (i : ℕ) (v w : ℤ) :
    (f.setBall i v).setBall i w = f.setBall i w := by
  simp [Frame.setBall, List.set_set]

theorem Frame.setSymbol_setSymbol_same (f : Frame) (i : ℕ) (s t : String) :
    (f.setSymbol i s).setSymbol i t = f.setSymbol i t := by
  simp [Frame.setSymbol, List.set_set]

theorem Frame.setBall_setSymbol_comm (f : Frame) (i j : ℕ) (s : String) (v : ℤ) :
    (f.setSymbol i s).setBall j v = (f.setBall j v).setSymbol i s := rfl

theorem fillStrike1_idem (f : Frame) (B : List ℤ) :
    fillStrike1 (fillStrike1 f B) B = fillStrike1 f B := by
  unfold fillStrike1
  split
  · rename_i hc
    split
    · rename_i hc'
      rw [Frame.setBall_setSymbol_comm, Frame.setBall_setBall_same,
        Frame.setSymbol_setSymbol_same]
    · rfl
  · rfl

theorem fillStrike_of_len_le_one (f : Frame) (B : List ℤ) (hB : B.length ≤ 1) :
    fillStrike f B = fillStrike1 f B := by
  unfold fillStrike fillStrike2
  rw [if_neg]
  intro hc
  omega

theorem fillStrike_idem_of_len_le_one (f : Frame) (B : List ℤ) (hB : B.length ≤ 1) :
    fillStrike (fillStrike f B) B = fillStrike f B := by
  rw [fillStrike_of_len_le_one _ _ hB, fillStrike_of_len_le_one _ _ hB, fillStrike1_idem]

theorem fillStrike1_balls_length (f : Frame) (B : List ℤ) :
    (fillStrike1 f B).balls.length = f.balls.length := by
  unfold fillStrike1
  split <;> simp

theorem fillStrike1_ball2 (f : Frame) (B : List ℤ) :
    (fillStrike1 f B).ball 2 = f.ball 2 := by
  unfold fillStrike1
  split <;> simp

theorem fillStrike1_ball1_filled (f : Frame) (B : List ℤ) (h3 : f.balls.length = 3)
    (hB : 1 ≤ B.length) : (fillStrike1 f B).ball 1 ≠ none := by
  unfold fillStrike1
  split
  · rw [Frame.ball_setSymbol, Frame.ball_setBall_self f 1 _ (by omega)]
    simp
  · rename_i hc
    intro hnone
    exact hc ⟨hB, hnone⟩

theorem fillStrike_ball1_filled (f : Frame) (B : List ℤ) (h3 : f.balls.length = 3)
    (hB : 1 ≤ B.length) : (fillStrike f B).ball 1 ≠ none := by
  unfold fillStrike fillStrike2
  split
  · rw [Frame.ball_setSymbol, Frame.ball1_setBall2]
    exact fillStrike1_ball1_filled f B h3 hB
  · exact fillStrike1_ball1_filled f B h3 hB

theorem fillStrike_ball2_filled (f : Frame) (B : List ℤ) (h3 : f.balls.length = 3)
    (hB : 2 ≤ B.length) : (fillStrike f B).ball 2 ≠ none := by
  unfold fillStrike fillStrike2
  split
  · rw [Frame.ball_setSymbol,
      Frame.ball_setBall_self _ 2 _ (by rw [fillStrike1_balls_length]; omega)]
    simp
  · rename_i hc
    rw [fillStrike1_ball2]
    intro hnone
    rw [fillStrike1_ball2] at hc
    exact hc ⟨hB, hnone⟩

theorem fillStrike_symbol1_of_ne (f : Frame) (B : List ℤ) : (fillStrike f B).symbol 1 =
    (fillStrike1 f B).symbol 1 := by
  unfold fillStrike fillStrike2
  split
  · rw [Frame.symbol1_setSymbol2, Frame.symbol_setBall]
  · rfl

theorem fillFrame_eq_strike (f : Frame) (rest : List Frame) (hX : f.symbol 0 = some "X")
    (hc : f.ball 1 = none ∨ f.ball 2 = none) :
    fillFrame f rest = fillStrike f (strike_bonus_balls rest) := by
  unfold fillFrame
  rw [if_pos hX, if_pos hc]

theorem fillFrame_eq_self_strike_filled (f : Frame) (rest : List Frame)
    (hX : f.symbol 0 = some "X") (hc : ¬(f.ball 1 = none ∨ f.ball 2 = none)) :
    fillFrame f rest = f := by
  unfold fillFrame
  rw [if_pos hX, if_neg hc]

theorem fillFrame_eq_spare (f : Frame) (rest : List Frame) (hX : ¬f.symbol 0 = some "X")
    (hS : f.symbol 1 = some "/") (hc : rest ≠ [] ∧ f.ball 2 = none) :
    fillFrame f rest =
      (match spare_bonus_ball rest with
        | some v => (f.setBall 2 v).setSymbol 2 (toString v)
        | none => f) := by
  unfold fillFrame
  rw [if_neg hX, if_pos hS, if_pos hc]

theorem fillFrame_eq_self_spare_blocked (f : Frame) (rest : List Frame)
    (hX : ¬f.symbol 0 = some "X") (hS : f.symbol 1 = some "/")
    (hc : ¬(rest ≠ [] ∧ f.ball 2 = none)) : fillFrame f rest = f := by
  unfold fillFrame
  rw [if_neg hX, if_pos hS, if_neg hc]

theorem fillFrame_eq_self_plain (f : Frame) (rest : List Frame)
    (hX : ¬f.symbol 0 = some "X") (hS : ¬f.symbol 1 = some "/") : fillFrame f rest = f := by
  unfold fillFrame
  rw [if_neg hX, if_neg hS]

theorem strike_bonus_balls_calc_pass1_of_le_one (rest : List Frame)
    (hB : (strike_bonus_balls rest).length ≤ 1) : calc_pass1 rest = rest := by
  refine calc_pass1_eq_self_of_nn rest ?_
  unfold strike_bonus_balls at hB
  rw [List.length_take] at hB
  omega

theorem fillFrame_idem (f : Frame) (rest : List Frame) (h3 : f.balls.length = 3) :
    fillFrame (fillFrame f rest) (calc_pass1 rest) = fillFrame f rest := by
  by_cases hX : f.symbol 0 = some "X"
  · by_cases hc : f.ball 1 = none ∨ f.ball 2 = none
    · rw [fillFrame_eq_strike f rest hX hc]
      have hX' : (fillStrike f (strike_bonus_balls rest)).symbol 0 = some "X" := by
        rw [fillStrike_symbol0]
        exact hX
      by_cases hB : 2 ≤ (strike_bonus_balls rest).length
      · have h1 : (fillStrike f (strike_bonus_balls rest)).ball 1 ≠ none :=
          fillStrike_ball1_filled f _ h3 (by omega)
        have h2 : (fillStrike f (strike_bonus_balls rest)).ball 2 ≠ none :=
          fillStrike_ball2_filled f _ h3 hB
        exact fillFrame_eq_self_strike_filled _ _ hX' (by
          intro hor
          rcases hor with h | h
          · exact h1 h
          · exact h2 h)
      · have hle : (strike_bonus_balls rest).length ≤ 1 := by omega
        have hrest : calc_pass1 rest = rest := strike_bonus_balls_calc_pass1_of_le_one rest hle
        rw [hrest]
        by_cases hc' : (fillStrike f (strike_bonus_balls rest)).ball 1 = none ∨
            (fillStrike f (strike_bonus_balls rest)).ball 2 = none
        · rw [fillFrame_eq_strike _ rest hX' hc']
          exact fillStrike_idem_of_len_le_one f _ hle
        · exact fillFrame_eq_self_strike_filled _ rest hX' hc'
    · rw [fillFrame_eq_self_strike_filled f rest hX hc,
        fillFrame_eq_self_strike_filled f _ hX hc]
  · by_cases hS : f.symbol 1 = some "/"
    · by_cases hc : rest ≠ [] ∧ f.ball 2 = none
      · rw [fillFrame_eq_spare f rest hX hS hc]
        cases hsp : spare_bonus_ball rest with
        | none =>
          simp only
          rw [fillFrame_eq_spare f _ hX hS
            ⟨(calc_pass1_ne_nil_iff rest).mpr hc.1, hc.2⟩,
            spare_bonus_ball_calc_pass1, hsp]
        | some v =>
          simp only
          have hX' : ¬((f.setBall 2 v).setSymbol 2 (toString v)).symbol 0 = some "X" := by
            rw [Frame.symbol0_setSymbol2, Frame.symbol_setBall]
            exact hX
          have hS' : ((f.setBall 2 v).setSymbol 2 (toString v)).symbol 1 = some "/" := by
            rw [Frame.symbol1_setSymbol2, Frame.symbol_setBall]
            exact hS
          have hb2 : ((f.setBall 2 v).setSymbol 2 (toString v)).ball 2 = some v := by
            rw [Frame.ball_setSymbol, Frame.ball_setBall_self f 2 v (by omega)]
          refine fillFrame_eq_self_spare_blocked _ _ hX' hS' ?_
          intro hcc
          rw [hb2] at hcc
          exact Option.some_ne_none v hcc.2
      · rw [fillFrame_eq_self_spare_blocked f rest hX hS hc]
        refine fillFrame_eq_self_spare_blocked f _ hX hS ?_
        intro hcc
        exact hc ⟨(calc_pass1_ne_nil_iff rest).mp hcc.1, hcc.2⟩
    · rw [fillFrame_eq_self_plain f rest hX hS, fillFrame_eq_self_plain f _ hX hS]

theorem calc_pass1_cons (f : Frame) (rest : List Frame) :
    calc_pass1 (f :: rest) =
      if f.ball 0 = none then f :: rest else fillFrame f rest :: calc_pass1 rest := rfl

theorem calc_pass1_cons_none (f : Frame) (rest : List Frame) (h : f.ball 0 = none) :
    calc_pass1 (f :: rest) = f :: rest := by
  rw [calc_pass1_cons, if_pos h]

theorem calc_pass1_cons_some (f : Frame) (rest : List Frame) (h : ¬f.ball 0 = none) :
    calc_pass1 (f :: rest) = fillFrame f rest :: calc_pass1 rest := by
  rw [calc_pass1_cons, if_neg h]

theorem calc_pass1_idem (l : List Frame) (hWF : ∀ f ∈ l, f.balls.length = 3) :
    calc_pass1 (calc_pass1 l) = calc_pass1 l := by
  induction l with
  | nil => rfl
  | cons f rest ih =>
    by_cases h0 : f.ball 0 = none
    · rw [calc_pass1_cons_none f rest h0, calc_pass1_cons_none f rest h0]
    · rw [calc_pass1_cons_some f rest h0,
        calc_pass1_cons_some _ _ (by rw [fillFrame_ball0]; exact h0),
        fillFrame_idem f rest (hWF f (by simp)),
        ih (fun x hx => hWF x (by simp [hx]))]

theorem calc_pass2_cons (f : Frame) (rest : List Frame) (olds : List (Option ℤ)) (acc : ℤ) :
    calc_pass2 (f :: rest) olds acc =
      if f.ball 0 = none then (olds, acc)
      else
        (some (acc + frameScore f) :: (calc_pass2 rest olds.tail (acc + frameScore f)).1,
          (calc_pass2 rest olds.tail (acc + frameScore f)).2) := rfl

theorem calc_pass2_idem (fs : List Frame) (olds : List (Option ℤ)) (acc : ℤ) :
    calc_pass2 fs (calc_pass2 fs olds acc).1 acc = calc_pass2 fs olds acc := by
  induction fs generalizing olds acc with
  | nil => rfl
  | cons f rest ih =>
    by_cases h0 : f.ball 0 = none
    · rw [calc_pass2_cons, if_pos h0, calc_pass2_cons, if_pos h0]
    · rw [calc_pass2_cons f rest olds acc, if_neg h0]
      rw [calc_pass2_cons, if_neg h0]
      simp only [List.tail_cons]
      rw [ih olds.tail (acc + frameScore f)]

theorem calculate_score_bowler_idem (b : Bowler)
    (hWF : ∀ f ∈ b.frames, f.balls.length = 3) :
    calculate_score_bowler (calculate_score_bowler b) = calculate_score_bowler b := by
  unfold calculate_score_bowler
  simp only
  rw [calc_pass1_idem b.frames hWF, calc_pass2_idem]

/-- C6: invoking the bonus/total computation twice with no intervening
throw yields identical frame ball values, frame_totals and total_score:
calculate_score is idempotent.  The hypothesis is the structural invariant
of the source data (every frame dict has exactly 3 ball slots, as built by
_create_empty_frames). -/
theorem calculate_score_idempotent (g : FivePinGame)
    (hWF : ∀ f ∈ (FivePinGame.current_bowler g).frames, f.balls.length = 3) :
    calculate_score (calculate_score g) = calculate_score g := by
  unfold calculate_score FivePinGame.setCurrentBowler FivePinGame.current_bowler
  simp only
  by_cases hi : g.current_bowler_index < g.bowlers.length
  · rw [getD_set_self _ _ _ _ (by simpa using hi)]
    rw [calculate_score_bowler_idem (g.bowlers.getD g.current_bowler_index default) hWF,
      List.set_set]
  · have hle : g.bowlers.length ≤ g.current_bowler_index := by omega
    rw [List.set_eq_of_length_le hle, List.set_eq_of_length_le hle]

/-- Witness for C6 at a concrete input: a fresh three-bowler default game. -/
theorem calculate_score_idempotent_witness :
    (∀ f ∈ (FivePinGame.current_bowler (mkGame ["Iron Man", "Superman", "Snoopi"] 0)).frames,
        f.balls.length = 3) ∧
      calculate_score (calculate_score (mkGame ["Iron Man", "Superman", "Snoopi"] 0)) =
        calculate_score (mkGame ["Iron Man", "Superman", "Snoopi"] 0) :=
  ⟨by decide, calculate_score_idempotent (mkGame ["Iron Man", "Superman", "Snoopi"] 0)
    (by decide)⟩

/-- C5: a perfect game (all 5 pins on the first ball of frames 1-9 and
three all-five balls in the 10th) totals 450 under pin values
[2, 3, 5, 3, 2]. -/
theorem perfect_game_total_450 :
    ((((List.replicate 12 PinVec.allDown).foldl (fun s r => process_ball 0 s r)
        (mkGame ["Solo"] 0)).bowlers.getD 0 default).total_score) = 450 := by
  decide

/-- C4: the pin-machine controller violates pin monotonicity in the
zero-pins-knocked branch: with pin 0 already down before the throw
(pins_standing = [1,0,0,0,0]) and no sensor firing, _process_ball_throw
returns [0,0,0,0,0], reporting the downed pin as standing again, while
its own internal pins_standing still records the pin as down.  This
contradicts the functions docstring ("Returns: final pin state") and the
monotonic-pins invariant the claim states. -/
theorem process_ball_throw_unknocks_pin :
    (PinVec.mk 1 0 0 0 0).p0 = 1 ∧
      (process_ball_throw (PinVec.mk 1 0 0 0 0) PinVec.standing).1.p0 = 0 ∧
      (process_ball_throw (PinVec.mk 1 0 0 0 0) PinVec.standing).1 = PinVec.standing ∧
      (process_ball_throw (PinVec.mk 1 0 0 0 0) PinVec.standing).2 = PinVec.mk 1 0 0 0 0 := by
  decide

/-- C1 counterexample: in frame 1 (index 0) a bowler throws two balls that
knock nothing down; the claim says the frame advances once two balls have
been thrown, but the code keeps it open (current_frame still 0,
current_ball 2) and records a third thrown ball in that frame. -/
theorem frame_advance_after_two_balls_counterexample :
    ((((List.replicate 2 PinVec.standing).foldl (fun s r => process_ball 0 s r)
        (mkGame ["A"] 0)).bowlers.getD 0 default).current_frame = 0 ∧
      (((List.replicate 2 PinVec.standing).foldl (fun s r => process_ball 0 s r)
        (mkGame ["A"] 0)).bowlers.getD 0 default).current_ball = 2) ∧
    (((((List.replicate 3 PinVec.standing).foldl (fun s r => process_ball 0 s r)
        (mkGame ["A"] 0)).bowlers.getD 0 default).frames.getD 0 default).ball 2 = some 0 ∧
      (((List.replicate 3 PinVec.standing).foldl (fun s r => process_ball 0 s r)
        (mkGame ["A"] 0)).bowlers.getD 0 default).current_frame = 1) := by
  decide

/-- C2 counterexample: a bowler reaches the 10th frame with nine strikes,
then throws a non-strike first ball ([1,0,0,0,0]) and a second ball that
still leaves pins standing ([1,1,0,0,0]).  The claim says the frame and
game end after these 2 recorded throws, but the code keeps the bowler in
frame index 9 awaiting a third ball, and only after the third throw does
current_frame become 10. -/
theorem tenth_frame_two_ball_termination_counterexample :
    ((((List.replicate 9 PinVec.allDown ++ [PinVec.mk 1 0 0 0 0, PinVec.mk 1 1 0 0 0]).foldl
        (fun s r => process_ball 0 s r) (mkGame ["A"] 0)).bowlers.getD 0
          default).current_frame = 9 ∧
      (((List.replicate 9 PinVec.allDown ++ [PinVec.mk 1 0 0 0 0, PinVec.mk 1 1 0 0 0]).foldl
        (fun s r => process_ball 0 s r) (mkGame ["A"] 0)).bowlers.getD 0
          default).current_ball = 2) ∧
    (((List.replicate 9 PinVec.allDown ++
        [PinVec.mk 1 0 0 0 0, PinVec.mk 1 1 0 0 0, PinVec.mk 1 1 1 0 0]).foldl
        (fun s r => process_ball 0 s r) (mkGame ["A"] 0)).bowlers.getD 0
          default).current_frame = 10 := by
  decide

/-- C3 counterexample: after a single strike throw on a fresh game the
strike frames bonus balls have not been thrown, yet the cumulative-total
pass stores the partial total some 15 for frame 1 instead of leaving it
unset (the claim says no total is computed until the bonus balls exist). -/
theorem strike_frame_partial_total_counterexample :
    ((process_ball 0 (mkGame ["A"] 0) PinVec.allDown).bowlers.getD 0
        default).frame_totals.getD 0 none = some 15 ∧
      (((process_ball 0 (mkGame ["A"] 0) PinVec.allDown).bowlers.getD 0
        default).frames.getD 0 default).ball 1 = none := by
  decide

/-- C7: every guard (session expired or complete, between games, hold
active, or the acting bowler already past frame 10) makes process_ball
return the state unchanged: a silent no-op on all bowler, frame, pin and
session state. -/
theorem process_ball_guard_noop (now : ℚ) (g : FivePinGame) (r : PinVec)
    (h : g.session_expired = true ∨ g.session_complete = true ∨ g.between_games = true ∨
      g.hold_active = true ∨ 10 ≤ (FivePinGame.current_bowler g).current_frame) :
    process_ball now g r = g := by
  unfold process_ball
  split_ifs with h1 h2
  · rfl
  · rfl
  · have hcf : 10 ≤ (FivePinGame.current_bowler g).current_frame := by
      rcases h with h | h | h | h | h
      · exact absurd (Or.inl h) h1
      · exact absurd (Or.inr (Or.inl h)) h1
      · exact absurd (Or.inr (Or.inr h)) h1
      · exact absurd h h2
      · exact h
    simp only [hcf, if_true]

/-- Witness for C7: an expired session leaves a fresh game state
byte-for-byte unchanged. -/
theorem process_ball_guard_noop_witness :
    ({ mkGame ["A"] 0 with session_expired := true } : FivePinGame).session_expired = true ∧
      process_ball 0 { mkGame ["A"] 0 with session_expired := true } PinVec.allDown =
        { mkGame ["A"] 0 with session_expired := true } :=
  ⟨rfl, process_ball_guard_noop 0 { mkGame ["A"] 0 with session_expired := true }
    PinVec.allDown (Or.inl rfl)⟩

/-- C8: whenever _handle_ball_detected sends a suspend command on the
control queue, a resume command is also sent before the handler returns,
whether the throw resolution succeeds or raises (the resume is emitted by
the finally block). -/
theorem suspend_implies_resume (ctx : BridgeCtx) (resolution : Except String PinVec)
    (h : ControlAction.suspend ∈ handle_ball_detected_controls ctx resolution) :
    ControlAction.resume ∈ handle_ball_detected_controls ctx resolution := by
  unfold handle_ball_detected_controls at h ⊢
  split_ifs at h ⊢ <;> cases resolution <;> simp_all

/-- Witness for C8: an active-game context with a configured control queue
whose throw resolution raises still emits the resume after the suspend. -/
theorem suspend_implies_resume_witness :
    ControlAction.suspend ∈ handle_ball_detected_controls
        ⟨true, false, false, false, true⟩ (Except.error "boom") ∧
      ControlAction.resume ∈ handle_ball_detected_controls
        ⟨true, false, false, false, true⟩ (Except.error "boom") :=
  ⟨by decide, suspend_implies_resume ⟨true, false, false, false, true⟩
    (Except.error "boom") (by decide)⟩

/-- C9: for a trace containing two rising edges at times t1 and t2 (with a
low sample in between) where the first edge passes the debounce test, the
daemon publishes exactly one ball_detected event when the edges are less
than debounce_ms (500 ms) apart — and the rejected edge does not move the
debounce window — and exactly two events when they are more than
debounce_ms apart. -/
theorem debounce_law (t1 tm t2 : ℚ) (d0 : Option ℚ) (h1 : debounce_ok d0 t1 = true) :
    ((t2 - t1) * 1000 < 500 →
        (sensor_run ⟨0, d0⟩ [(t1, 1), (tm, 0), (t2, 1)]).2 = [t1] ∧
          (sensor_run ⟨0, d0⟩ [(t1, 1), (tm, 0), (t2, 1)]).1.last_detection = some t1) ∧
      (500 < (t2 - t1) * 1000 →
        (sensor_run ⟨0, d0⟩ [(t1, 1), (tm, 0), (t2, 1)]).2 = [t1, t2]) := by
  constructor
  · intro hlt
    have hno : debounce_ok (some t1) t2 = false := by
      simp [debounce_ok]
      linarith
    simp [sensor_run, sensor_step, h1, hno]
  · intro hgt
    have hyes : debounce_ok (some t1) t2 = true := by
      simp [debounce_ok]
      linarith
    simp [sensor_run, sensor_step, h1, hyes]

/-- Witness for C9: edges at 0 s and 0.2 s give one event; edges at 0 s
and 1 s give two. -/
theorem debounce_law_witness :
    (debounce_ok none 0 = true ∧
      (sensor_run ⟨0, none⟩ [(0, 1), ((1 : ℚ)/10, 0), ((1 : ℚ)/5, 1)]).2 = [0] ∧
      (sensor_run ⟨0, none⟩ [(0, 1), ((1 : ℚ)/10, 0), ((1 : ℚ)/5, 1)]).1.last_detection =
        some 0) ∧
      (sensor_run ⟨0, none⟩ [(0, 1), ((1 : ℚ)/10, 0), (1, 1)]).2 = [0, 1] :=
  ⟨⟨by decide,
    ((debounce_law 0 ((1 : ℚ)/10) ((1 : ℚ)/5) none (by decide)).1 (by norm_num)).1,
    ((debounce_law 0 ((1 : ℚ)/10) ((1 : ℚ)/5) none (by decide)).1 (by norm_num)).2⟩,
    (debounce_law 0 ((1 : ℚ)/10) 1 none (by decide)).2 (by norm_num)⟩

theorem calc_pass2_totals_take (fs : List Frame) (olds : List (Option ℤ)) (acc : ℤ)
    (i : ℕ) (hball : ∀ j, j ≤ i → ¬(fs.getD j default).ball 0 = none) (hi : i < fs.length) :
    (calc_pass2 fs olds acc).1.getD i none =
      some (acc + ((fs.take (i + 1)).map frameScore).sum) := by
  induction fs generalizing olds acc i with
  | nil => simp at hi
  | cons f rest ih =>
    have h0 : ¬f.ball 0 = none := by
      have := hball 0 (Nat.zero_le i)
      simpa using this
    rw [calc_pass2_cons, if_neg h0]
    cases i with
    | zero => simp
    | succ i' =>
      simp only [List.getD_cons_succ, List.take_succ_cons, List.map_cons, List.sum_cons]
      rw [ih olds.tail (acc + frameScore f) i'
        (fun j hj => by
          have := hball (j + 1) (Nat.succ_le_succ hj)
          simpa using this)
        (by simpa using Nat.lt_of_succ_lt_succ hi)]
      congr 1
      ring

theorem calc_pass1_getD_ball0 (l : List Frame) (j : ℕ) :
    ((calc_pass1 l).getD j default).ball 0 = (l.getD j default).ball 0 := by
  have hm : ((calc_pass1 l).map (fun f => f.ball 0))[j]? =
      (l.map (fun f => f.ball 0))[j]? := by
    rw [calc_pass1_map_ball0 l]
  rw [List.getElem?_map, List.getElem?_map] at hm
  rw [List.getD_eq_getElem?_getD, List.getD_eq_getElem?_getD]
  cases h1 : (calc_pass1 l)[j]? with
  | none =>
    cases h2 : l[j]? with
    | none => rfl
    | some b =>
      rw [h1, h2] at hm
      simp at hm
  | some a =>
    cases h2 : l[j]? with
    | none =>
      rw [h1, h2] at hm
      simp at hm
    | some b =>
      rw [h1, h2] at hm
      simp at hm
      simpa using hm

/-- C3 amended: after the two passes of calculate_score, every frame whose
first ball (and those of all earlier frames) has been recorded carries a
computed cumulative total — the partial sum of the ball values present
after back-fill — even when the frame is a strike/spare whose bonus balls
have not yet been thrown.  No frame is left "not yet computable": pass 2
only stops at a frame whose first ball is missing. -/
theorem calculate_score_partial_totals (b : Bowler) (i : ℕ)
    (hball : ∀ j, j ≤ i → ¬(b.frames.getD j default).ball 0 = none)
    (hi : i < b.frames.length) :
    (calculate_score_bowler b).frame_totals.getD i none =
      some ((((calc_pass1 b.frames).take (i + 1)).map frameScore).sum) := by
  unfold calculate_score_bowler
  simp only
  rw [calc_pass2_totals_take (calc_pass1 b.frames) b.frame_totals 0 i
    (fun j hj => by rw [calc_pass1_getD_ball0]; exact hball j hj)
    (by rw [calc_pass1_length]; exact hi)]
  rw [zero_add]

/-- Witness for C3 amended: the one-strike bowler of the counterexample
has frame 1 total computed as the partial sum (15). -/
theorem calculate_score_partial_totals_witness :
    (∀ j, j ≤ 0 →
      ¬((((process_ball 0 (mkGame ["A"] 0) PinVec.allDown).bowlers.getD 0
        default).frames.getD j default).ball 0 = none)) ∧
      0 < ((process_ball 0 (mkGame ["A"] 0) PinVec.allDown).bowlers.getD 0
        default).frames.length ∧
      (calculate_score_bowler ((process_ball 0 (mkGame ["A"] 0) PinVec.allDown).bowlers.getD 0
          default)).frame_totals.getD 0 none =
        some ((((calc_pass1 ((process_ball 0 (mkGame ["A"] 0)
          PinVec.allDown).bowlers.getD 0 default).frames).take 1).map frameScore).sum) :=
  ⟨by decide, by decide,
    calculate_score_partial_totals
      ((process_ball 0 (mkGame ["A"] 0) PinVec.allDown).bowlers.getD 0 default) 0
      (by decide) (by decide)⟩

theorem pyInt_nonpos (q : ℚ) (h : q ≤ 0) : pyInt q ≤ 0 := by
  unfold pyInt
  split_ifs with h0
  · have : q = 0 := le_antisymm h h0
    simp [this]
  · refine Int.ceil_le.mpr ?_
    exact_mod_cast h

theorem scroll_time_warnings_state (rm : ℚ) (g : FivePinGame) (l : List ℤ)
    (r : FivePinGame × String) (h : scroll_time_warnings rm g l = some r) :
    r.1.game_over_pause = g.game_over_pause ∧ r.1.session_complete = g.session_complete ∧
      r.1.session_expired = g.session_expired ∧
      r.1.current_game_number = g.current_game_number ∧
      r.1.between_games = g.between_games ∧ r.1.next_game_timer = g.next_game_timer := by
  induction l with
  | nil => simp [scroll_time_warnings] at h
  | cons i rest ih =>
    unfold scroll_time_warnings at h
    split_ifs at h
    · exact ih h
    · rw [Option.some_inj] at h
      rw [← h]
      simp
    · exact ih h


theorem scroll_message_rest_fst (now : ℚ) (g : FivePinGame) :
    (scroll_message_rest now g).1 = g ∨
      ∃ r, scroll_time_warnings (remaining_mins_of now g) g [30, 25, 20, 15, 10, 5] =
          some r ∧ (scroll_message_rest now g).1 = r.1 := by
  unfold scroll_message_rest
  split
  · exact Or.inl rfl
  · split
    · exact Or.inl rfl
    · split
      · exact Or.inl rfl
      · split
        · split
          · exact Or.inl rfl
          · exact Or.inl rfl
        · split
          · split
            · rename_i r hr
              exact Or.inr ⟨r, hr, rfl⟩
            · exact Or.inl rfl
          · exact Or.inl rfl

theorem scroll_message_rest_state (now : ℚ) (g : FivePinGame) :
    (scroll_message_rest now g).1.game_over_pause = g.game_over_pause ∧
      (scroll_message_rest now g).1.session_complete = g.session_complete ∧
      (scroll_message_rest now g).1.session_expired = g.session_expired ∧
      (scroll_message_rest now g).1.current_game_number = g.current_game_number ∧
      (scroll_message_rest now g).1.between_games = g.between_games ∧
      (scroll_message_rest now g).1.next_game_timer = g.next_game_timer := by
  rcases scroll_message_rest_fst now g with h | ⟨r, hr, h⟩
  · rw [h]
    exact ⟨rfl, rfl, rfl, rfl, rfl, rfl⟩
  · rw [h]
    exact scroll_time_warnings_state _ _ _ r hr

theorem game_over_transition_pause (now : ℚ) (g : FivePinGame) :
    (game_over_transition now g).game_over_pause = g.game_over_pause := by
  unfold game_over_transition start_between_games_timer
  split <;> split_ifs <;> rfl

theorem game_over_transition_games_done (now : ℚ) (g : FivePinGame)
    (hm : g.session_config.mode = SessionMode.games)
    (hc : g.session_config.total_games ≤ g.current_game_number) :
    (game_over_transition now g).session_complete = true := by
  unfold game_over_transition
  rw [hm]
  simp only
  rw [if_pos hc]

theorem game_over_transition_games_next (now : ℚ) (g : FivePinGame)
    (hm : g.session_config.mode = SessionMode.games)
    (hc : ¬g.session_config.total_games ≤ g.current_game_number) :
    (game_over_transition now g).current_game_number = g.current_game_number + 1 ∧
      (game_over_transition now g).between_games = true ∧
      (game_over_transition now g).next_game_timer = some now := by
  unfold game_over_transition
  rw [hm]
  simp only
  rw [if_neg hc]
  unfold start_between_games_timer
  exact ⟨rfl, rfl, rfl⟩

theorem game_over_transition_time_done (now : ℚ) (g : FivePinGame)
    (hm : g.session_config.mode = SessionMode.time)
    (hc : g.session_config.total_time_minutes ≤ (now - g.session_start_time) / 60) :
    (game_over_transition now g).session_expired = true := by
  unfold game_over_transition
  rw [hm]
  simp only
  rw [if_pos hc]

theorem game_over_transition_time_next (now : ℚ) (g : FivePinGame)
    (hm : g.session_config.mode = SessionMode.time)
    (hc : ¬g.session_config.total_time_minutes ≤ (now - g.session_start_time) / 60) :
    (game_over_transition now g).current_game_number = g.current_game_number + 1 ∧
      (game_over_transition now g).between_games = true ∧
      (game_over_transition now g).next_game_timer = some now := by
  unfold game_over_transition
  rw [hm]
  simp only
  rw [if_neg hc]
  unfold start_between_games_timer
  exact ⟨rfl, rfl, rfl⟩

/-- C10: get_scroll_message is not a pure query.  When the game-over pause
is active and at least game_over_pause_duration seconds have elapsed since
it started, the call clears game_over_pause and itself performs the
session-lifecycle transition: in games mode it marks the session complete
when the game count is exhausted and otherwise increments the game number
and starts the between-games timer; in time mode it marks the session
expired when the time is up and otherwise increments the game number and
starts the timer. -/
theorem get_scroll_message_performs_transition (now : ℚ) (g : FivePinGame) (t0 : ℚ)
    (hp : g.game_over_pause = true) (hs : g.game_over_pause_start = some t0)
    (he : g.game_over_pause_duration ≤ now - t0) :
    (get_scroll_message now g).1.game_over_pause = false ∧
      (g.session_config.mode = SessionMode.games →
        (g.session_config.total_games ≤ g.current_game_number →
          (get_scroll_message now g).1.session_complete = true) ∧
        (g.current_game_number < g.session_config.total_games →
          (get_scroll_message now g).1.current_game_number = g.current_game_number + 1 ∧
            (get_scroll_message now g).1.between_games = true ∧
            (get_scroll_message now g).1.next_game_timer = some now)) ∧
      (g.session_config.mode = SessionMode.time →
        (g.session_config.total_time_minutes ≤ (now - g.session_start_time) / 60 →
          (get_scroll_message now g).1.session_expired = true) ∧
        ((now - g.session_start_time) / 60 < g.session_config.total_time_minutes →
          (get_scroll_message now g).1.current_game_number = g.current_game_number + 1 ∧
            (get_scroll_message now g).1.between_games = true ∧
            (get_scroll_message now g).1.next_game_timer = some now)) := by
  have hno : ¬0 < pyInt (g.game_over_pause_duration - (now - t0)) := by
    have := pyInt_nonpos (g.game_over_pause_duration - (now - t0)) (by linarith)
    omega
  have key : get_scroll_message now g =
      scroll_message_rest now
        (game_over_transition now { g with game_over_pause := false }) := by
    unfold get_scroll_message
    rw [hp, hs]
    simp only [if_true]
    rw [if_neg hno]
  obtain ⟨f1, f2, f3, f4, f5, f6⟩ := scroll_message_rest_state now
    (game_over_transition now { g with game_over_pause := false })
  rw [key]
  refine ⟨?_, ?_, ?_⟩
  · rw [f1, game_over_transition_pause]
  · intro hm
    constructor
    · intro hcnt
      rw [f2]
      exact game_over_transition_games_done now _ hm hcnt
    · intro hcnt
      obtain ⟨e1, e2, e3⟩ := game_over_transition_games_next now
        ({ g with game_over_pause := false }) hm (by simp; omega)
      exact ⟨by rw [f4, e1], by rw [f5, e2], by rw [f6, e3]⟩
  · intro hm
    constructor
    · intro hcnt
      rw [f3]
      exact game_over_transition_time_done now _ hm hcnt
    · intro hcnt
      obtain ⟨e1, e2, e3⟩ := game_over_transition_time_next now
        ({ g with game_over_pause := false }) hm (by simp; linarith)
      exact ⟨by rw [f4, e1], by rw [f5, e2], by rw [f6, e3]⟩

/-- Witness for C10: a single-game games-mode session whose pause started
at time 0, queried at time 61, is marked complete and the pause cleared. -/
theorem get_scroll_message_performs_transition_witness :
    ({ mkGame ["A"] 0 with game_over_pause := true, game_over_pause_start := some 0 } : FivePinGame).game_over_pause = true ∧
      (get_scroll_message 61 { mkGame ["A"] 0 with game_over_pause := true, game_over_pause_start := some 0 }).1.game_over_pause = false ∧
      (get_scroll_message 61 { mkGame ["A"] 0 with game_over_pause := true, game_over_pause_start := some 0 }).1.session_complete = true :=
  ⟨rfl,
    (get_scroll_message_performs_transition 61
      { mkGame ["A"] 0 with game_over_pause := true, game_over_pause_start := some 0 } 0
      rfl rfl (by norm_num [mkGame])).1,
    ((get_scroll_message_performs_transition 61
      { mkGame ["A"] 0 with game_over_pause := true, game_over_pause_start := some 0 } 0
      rfl rfl (by norm_num [mkGame])).2.1 rfl).1 (by decide)⟩

theorem getD_set_proj {α β : Type} [Inhabited α] (l : List α) (i j : ℕ) (F : α → α)
    (p : α → β) (hp : ∀ x, p (F x) = p x) :
    p ((l.set i (F (l.getD i default))).getD j default) = p (l.getD j default) := by
  by_cases hij : i = j
  · subst hij
    by_cases hi : i < l.length
    · rw [getD_set_self _ _ _ _ hi]
      exact hp _
    · rw [List.set_eq_of_length_le (by omega)]
  · rw [getD_set_ne _ _ _ _ _ hij]

theorem getLast?_map_set_proj {α β : Type} [Inhabited α] (l : List α) (i : ℕ) (F : α → α)
    (p : α → β) (hp : ∀ x, p (F x) = p x) :
    ((l.set i (F (l.getD i default))).getLast?).map p = (l.getLast?).map p := by
  rw [List.getLast?_eq_getElem?, List.getLast?_eq_getElem?, List.length_set]
  by_cases hl : l.length = 0
  · rw [List.length_eq_zero.mp hl]
    simp
  · by_cases hi : i = l.length - 1
    · subst hi
      have hlt : l.length - 1 < l.length := by omega
      rw [List.getElem?_set_eq_of_lt _ (by simpa using hlt)]
      rw [List.getElem?_eq_getElem hlt]
      simp only [Option.map_some']
      rw [hp]
      congr 1
      rw [List.getD_eq_getElem?_getD, List.getElem?_eq_getElem hlt]
      rfl
    · rw [List.getElem?_set_ne hi]

theorem bowlerTurnState_calculate_score_bowler (b : Bowler) :
    bowlerTurnState (calculate_score_bowler b) = bowlerTurnState b := rfl

theorem calculate_score_getD_turnState (g : FivePinGame) (j : ℕ) :
    bowlerTurnState ((calculate_score g).bowlers.getD j default) =
      bowlerTurnState (g.bowlers.getD j default) := by
  unfold calculate_score FivePinGame.setCurrentBowler FivePinGame.current_bowler
  exact getD_set_proj _ _ _ _ _ bowlerTurnState_calculate_score_bowler

theorem calculate_score_getLast_turnState (g : FivePinGame) :
    (((calculate_score g).bowlers.getLast?).map bowlerTurnState) =
      ((g.bowlers.getLast?).map bowlerTurnState) := by
  unfold calculate_score FivePinGame.setCurrentBowler FivePinGame.current_bowler
  exact getLast?_map_set_proj _ _ _ _ bowlerTurnState_calculate_score_bowler

theorem calculate_score_index (g : FivePinGame) :
    (calculate_score g).current_bowler_index = g.current_bowler_index := rfl

theorem calculate_score_raised (g : FivePinGame) :
    (calculate_score g).raised = g.raised := rfl

theorem calculate_score_length (g : FivePinGame) :
    (calculate_score g).bowlers.length = g.bowlers.length := by
  unfold calculate_score FivePinGame.setCurrentBowler
  exact List.length_set ..

theorem handle_game_complete_bowlers (now : ℚ) (g : FivePinGame) :
    (handle_game_complete now g).bowlers = g.bowlers ∧
      (handle_game_complete now g).raised = g.raised := by
  simp only [handle_game_complete, start_between_games_timer]
  split <;> split_ifs <;> exact ⟨rfl, rfl⟩

theorem next_frame_rotate (now : ℚ) (g : FivePinGame)
    (hi : g.current_bowler_index < g.bowlers.length)
    (hcf : (FivePinGame.current_bowler g).current_frame + 1 < 10) :
    (next_frame now g).raised = g.raised ∧
      (next_frame now g).current_bowler_index = 0 ∧
      (next_frame now g).bowlers.length = g.bowlers.length ∧
      ((next_frame now g).bowlers.getLast?).map bowlerTurnState =
        some ((FivePinGame.current_bowler g).current_frame + 1, 0, PinVec.standing) := by
  have hcf2 : ¬10 ≤ (FivePinGame.current_bowler g).current_frame + 1 := by omega
  unfold FivePinGame.current_bowler at hcf2
  simp only [next_frame, reset_pins, FivePinGame.setCurrentBowler, FivePinGame.current_bowler]
  rw [if_neg hcf2]
  rw [getD_set_self g.bowlers g.current_bowler_index _ _ hi]
  rw [List.set_set]
  rw [getD_set_self g.bowlers g.current_bowler_index _ _ hi]
  refine ⟨rfl, rfl, ?_, ?_⟩
  · rw [List.length_append, List.length_eraseIdx]
    simp only [List.length_set]
    rw [if_pos hi]
    simp
    omega
  · rw [List.getLast?_concat]
    rfl

theorem next_frame_single_finish (now : ℚ) (g : FivePinGame)
    (hone : g.bowlers.length = 1) (hi : g.current_bowler_index = 0)
    (hcf : 10 ≤ (FivePinGame.current_bowler g).current_frame + 1) :
    ((next_frame now g).bowlers.getD 0 default).current_frame =
      (FivePinGame.current_bowler g).current_frame + 1 ∧
      (next_frame now g).raised = g.raised := by
  obtain ⟨b, hb⟩ := List.length_eq_one.mp hone
  unfold FivePinGame.current_bowler at hcf ⊢
  rw [hb, hi] at hcf
  simp only [List.getD_cons_zero] at hcf
  simp only [next_frame, reset_pins, FivePinGame.setCurrentBowler, FivePinGame.current_bowler]
  rw [hb, hi]
  simp only [List.set_cons_zero, List.getD_cons_zero]
  rw [if_pos hcf]
  rw [if_pos (by simp [hcf])]
  obtain ⟨hbw, hrs⟩ := handle_game_complete_bowlers now _
  rw [hbw, hrs]
  simp

theorem reset_pins_getD_cf (g : FivePinGame) (j : ℕ) :
    ((reset_pins g).bowlers.getD j default).current_frame =
      (g.bowlers.getD j default).current_frame := by
  unfold reset_pins FivePinGame.setCurrentBowler FivePinGame.current_bowler
  exact getD_set_proj g.bowlers g.current_bowler_index j
    (fun b => { b with pins_standing := PinVec.standing })
    (fun b => b.current_frame) (fun x => rfl)

theorem calculate_score_getD_cf (g : FivePinGame) (j : ℕ) :
    ((calculate_score g).bowlers.getD j default).current_frame =
      (g.bowlers.getD j default).current_frame := by
  unfold calculate_score FivePinGame.setCurrentBowler FivePinGame.current_bowler
  exact getD_set_proj g.bowlers g.current_bowler_index j calculate_score_bowler
    (fun b => b.current_frame) (fun x => rfl)

theorem current_bowler_setCurrentBowler (g : FivePinGame) (b : Bowler)
    (h : g.current_bowler_index < g.bowlers.length) :
    FivePinGame.current_bowler (g.setCurrentBowler b) = b := by
  unfold FivePinGame.current_bowler FivePinGame.setCurrentBowler
  simp only
  rw [getD_set_self _ _ _ _ h]

theorem advance_tail_cf (now : ℚ) (X : FivePinGame)
    (h1 : X.bowlers.length = 1) (h2 : X.current_bowler_index = 0)
    (h3 : (FivePinGame.current_bowler X).current_frame = 9) (h4 : X.raised = false) :
    ((if (next_frame now X).raised = true then next_frame now X
        else calculate_score (next_frame now X)).bowlers.getD 0 default).current_frame = 10 := by
  obtain ⟨hcf, hrs⟩ := next_frame_single_finish now X h1 h2 (by omega)
  rw [hrs, h4]
  simp only [Bool.false_eq_true, if_false]
  rw [calculate_score_getD_cf, hcf, h3]

theorem reset_opt_calc_cf (X : FivePinGame) (C : Prop) [Decidable C] :
    ((calculate_score (if C then reset_pins X else X)).bowlers.getD 0
        default).current_frame = (X.bowlers.getD 0 default).current_frame := by
  rw [calculate_score_getD_cf]
  split_ifs with h
  · rw [reset_pins_getD_cf]
  · rfl

theorem getD0_setCurrentBowler (g : FivePinGame) (b : Bowler)
    (hi : g.current_bowler_index = 0) (hl : 0 < g.bowlers.length) :
    (g.setCurrentBowler b).bowlers.getD 0 default = b := by
  unfold FivePinGame.setCurrentBowler
  simp only
  rw [hi]
  exact getD_set_self _ _ _ _ hl

@[simp] theorem updFrame_pins_standing (b : Bowler) (i : ℕ) (h : Frame → Frame) :
    (updFrame b i h).pins_standing = b.pins_standing := rfl

@[simp] theorem updFrame_current_ball (b : Bowler) (i : ℕ) (h : Frame → Frame) :
    (updFrame b i h).current_ball = b.current_ball := rfl

@[simp] theorem updFrame_current_frame (b : Bowler) (i : ℕ) (h : Frame → Frame) :
    (updFrame b i h).current_frame = b.current_frame := rfl

@[simp] theorem setCurrentBowler_raised (g : FivePinGame) (b : Bowler) :
    (g.setCurrentBowler b).raised = g.raised := rfl

@[simp] theorem setCurrentBowler_index (g : FivePinGame) (b : Bowler) :
    (g.setCurrentBowler b).current_bowler_index = g.current_bowler_index := rfl

@[simp] theorem setCurrentBowler_length (g : FivePinGame) (b : Bowler) :
    (g.setCurrentBowler b).bowlers.length = g.bowlers.length := by
  unfold FivePinGame.setCurrentBowler
  simp

/-- C2 amended: in the 10th frame the bowler always gets exactly three
balls; the frame (and single-bowler game) ends, moving current_frame to
10, exactly when the throw being processed is the third one, regardless of
strikes, spares or open counts on the first two balls. -/
theorem tenth_frame_ends_after_three (now : ℚ) (g : FivePinGame) (r : PinVec)
    (hg1 : g.session_expired = false) (hg2 : g.session_complete = false)
    (hg3 : g.between_games = false) (hg4 : g.hold_active = false)
    (hraised : g.raised = false)
    (hone : g.bowlers.length = 1) (hi : g.current_bowler_index = 0)
    (hcf : (FivePinGame.current_bowler g).current_frame = 9)
    (hcb : (FivePinGame.current_bowler g).current_ball ≤ 2) :
    ((process_ball now g r).bowlers.getD 0 default).current_frame = 10 ↔
      (FivePinGame.current_bowler g).current_ball = 2 := by
  have hilt : g.current_bowler_index < g.bowlers.length := by omega
  unfold process_ball
  rw [if_neg (by simp [hg1, hg2, hg3]), if_neg (by simp [hg4]),
    if_neg (show ¬10 ≤ (FivePinGame.current_bowler g).current_frame by omega)]
  have hcb3 : (FivePinGame.current_bowler g).current_ball = 0 ∨
      (FivePinGame.current_bowler g).current_ball = 1 ∨
      (FivePinGame.current_bowler g).current_ball = 2 := by omega
  rcases hcb3 with hc | hc | hc
  · -- first ball of the 10th: never ends the frame
    rw [hc]
    by_cases hk : (pins_knocked_of (FivePinGame.current_bowler g).pins_standing r).sum = 5
    · simp only [hk, hc, hcf, updFrame_pins_standing, updFrame_current_ball, and_true,
        true_and, if_true, ne_eq, not_true_eq_false, if_false, reduceIte, zero_add,
        Nat.reduceLeDiff]
      rw [reset_opt_calc_cf, getD0_setCurrentBowler _ _ hi (by omega)]
      simp [hcf]
    · simp only [hk, hc, hcf, updFrame_pins_standing, updFrame_current_ball, and_false,
        false_and, if_false, and_true, true_and, if_true, reduceIte, zero_add,
        Nat.reduceLeDiff]
      rw [if_neg (by simp)]
      rw [reset_opt_calc_cf, getD0_setCurrentBowler _ _ hi (by omega)]
      simp [hcf]
  · -- second ball of the 10th: never ends the frame
    rw [hc]
    by_cases hs : r.sum = 5
    · simp only [hs, hc, hcf, updFrame_pins_standing, updFrame_current_ball, and_true,
        true_and, and_false, false_and, if_true, if_false, reduceIte, Nat.reduceLeDiff]
      rw [if_neg (by simp)]
      rw [calculate_score_getD_cf, reset_pins_getD_cf, getD0_setCurrentBowler _ _ hi (by omega)]
      simp [hcf]
    · simp only [hs, hc, hcf, updFrame_pins_standing, updFrame_current_ball, and_true,
        true_and, and_false, false_and, if_true, if_false, reduceIte, Nat.reduceLeDiff]
      rw [if_neg (by simp)]
      rw [if_neg (by simp [hs])]
      rw [calculate_score_getD_cf, getD0_setCurrentBowler _ _ hi (by omega)]
      simp [hcf]
  · -- third ball of the 10th: the frame and game end
    rw [hc]
    simp only [hc, hcf, updFrame_pins_standing, updFrame_current_ball, and_true, true_and,
      and_false, false_and, if_true, if_false, reduceIte, Nat.reduceLeDiff]
    rw [if_neg (by simp)]
    rw [if_neg (by simp)]
    rw [advance_tail_cf now _ (by simp [hone]) (by simp [hi]) (by
        rw [current_bowler_setCurrentBowler _ _ hilt]
        simp [hcf]) (by simp [hraised])]
    simp

/-- Witness for C2 amended: nine strikes then two open balls leave the
bowler on ball 3 of the 10th; applying the theorem to the third throw
confirms the game ends there. -/
theorem tenth_frame_ends_after_three_witness :
    ((FivePinGame.current_bowler ((List.replicate 9 PinVec.allDown ++
        [PinVec.mk 1 0 0 0 0, PinVec.mk 1 1 0 0 0]).foldl
        (fun s r => process_ball 0 s r) (mkGame ["A"] 0))).current_ball = 2) ∧
      ((process_ball 0 ((List.replicate 9 PinVec.allDown ++
          [PinVec.mk 1 0 0 0 0, PinVec.mk 1 1 0 0 0]).foldl
          (fun s r => process_ball 0 s r) (mkGame ["A"] 0))
        (PinVec.mk 1 1 1 0 0)).bowlers.getD 0 default).current_frame = 10 :=
  ⟨by decide,
    (tenth_frame_ends_after_three 0
      ((List.replicate 9 PinVec.allDown ++
        [PinVec.mk 1 0 0 0 0, PinVec.mk 1 1 0 0 0]).foldl
        (fun s r => process_ball 0 s r) (mkGame ["A"] 0))
      (PinVec.mk 1 1 1 0 0) (by decide) (by decide) (by decide) (by decide) (by decide)
      (by decide) (by decide) (by decide) (by decide)).mpr (by decide)⟩

theorem pins_result_sum_of_knocked (s r : PinVec) (h : (pins_knocked_of s r).sum = 5) :
    r.sum = 5 := by
  unfold pins_knocked_of at h
  unfold PinVec.sum at h ⊢
  simp only at h
  split_ifs at h <;> omega


theorem current_bowler_calculate_score (g : FivePinGame)
    (h : g.current_bowler_index < g.bowlers.length) :
    FivePinGame.current_bowler (calculate_score g) =
      calculate_score_bowler (FivePinGame.current_bowler g) := by
  unfold calculate_score
  exact current_bowler_setCurrentBowler _ _ h

theorem advance_turn (now : ℚ) (g : FivePinGame) (b : Bowler) (cf : ℕ)
    (hiX : g.current_bowler_index < g.bowlers.length)
    (hcfb : b.current_frame = cf) (hlt : cf + 1 < 10) (h4 : g.raised = false) :
    (if (next_frame now (g.setCurrentBowler b)).raised = true
        then next_frame now (g.setCurrentBowler b)
        else calculate_score (next_frame now (g.setCurrentBowler b))).current_bowler_index = 0 ∧
      (if (next_frame now (g.setCurrentBowler b)).raised = true
        then next_frame now (g.setCurrentBowler b)
        else calculate_score (next_frame now (g.setCurrentBowler b))).bowlers.length =
        g.bowlers.length ∧
      ((if (next_frame now (g.setCurrentBowler b)).raised = true
        then next_frame now (g.setCurrentBowler b)
        else calculate_score (next_frame now (g.setCurrentBowler b))).bowlers.getLast?).map
          bowlerTurnState = some (cf + 1, 0, PinVec.standing) := by
  have hiX' : (g.setCurrentBowler b).current_bowler_index <
      (g.setCurrentBowler b).bowlers.length := by simpa using hiX
  have hcfX : (FivePinGame.current_bowler (g.setCurrentBowler b)).current_frame = cf := by
    rw [current_bowler_setCurrentBowler _ _ hiX]
    exact hcfb
  obtain ⟨hrs, hidx, hlen, hlast⟩ := next_frame_rotate now _ hiX' (by omega)
  rw [hrs]
  simp only [setCurrentBowler_raised, h4, Bool.false_eq_true, if_false]
  refine ⟨?_, ?_, ?_⟩
  · rw [calculate_score_index]
    exact hidx
  · rw [calculate_score_length, hlen]
    simp
  · rw [calculate_score_getLast_turnState, hlast, hcfX]

theorem spare_turn (now : ℚ) (g : FivePinGame) (b2 : Bowler) (cf : ℕ)
    (hiX : g.current_bowler_index < g.bowlers.length)
    (hcfb : b2.current_frame = cf) (hlt : cf + 1 < 10) :
    (next_frame now (calculate_score (g.setCurrentBowler b2))).current_bowler_index = 0 ∧
      (next_frame now (calculate_score (g.setCurrentBowler b2))).bowlers.length =
        g.bowlers.length ∧
      ((next_frame now (calculate_score (g.setCurrentBowler b2))).bowlers.getLast?).map
          bowlerTurnState = some (cf + 1, 0, PinVec.standing) := by
  have hiX' : (calculate_score (g.setCurrentBowler b2)).current_bowler_index <
      (calculate_score (g.setCurrentBowler b2)).bowlers.length := by
    rw [calculate_score_index, calculate_score_length]
    simpa using hiX
  have hcfX : (FivePinGame.current_bowler
      (calculate_score (g.setCurrentBowler b2))).current_frame = cf := by
    rw [current_bowler_calculate_score _ (by simpa using hiX),
      current_bowler_setCurrentBowler _ _ hiX]
    exact hcfb
  obtain ⟨hrs, hidx, hlen, hlast⟩ := next_frame_rotate now _ hiX' (by omega)
  refine ⟨hidx, ?_, ?_⟩
  · rw [hlen, calculate_score_length]
    simp
  · rw [hlast, hcfX]

theorem noadvance_turn (g : FivePinGame) (b1 : Bowler) (t : ℕ × ℕ × PinVec)
    (hiX : g.current_bowler_index < g.bowlers.length)
    (ht : bowlerTurnState b1 = t) :
    (calculate_score (g.setCurrentBowler b1)).current_bowler_index =
      g.current_bowler_index ∧
      (calculate_score (g.setCurrentBowler b1)).bowlers.length = g.bowlers.length ∧
      bowlerTurnState ((calculate_score (g.setCurrentBowler b1)).bowlers.getD
        g.current_bowler_index default) = t := by
  refine ⟨by rw [calculate_score_index]; rfl, by rw [calculate_score_length]; simp, ?_⟩
  rw [calculate_score_getD_turnState]
  unfold FivePinGame.setCurrentBowler
  simp only
  rw [getD_set_self _ _ _ _ hiX, ht]

/-- C1 amended: outside the 10th frame a ball throw ends the frame —
rotating play back to the first bowler and handing the next bowler in line
a fresh rack on the next frame — exactly when the throw leaves all five
pins down or it is the third ball of the frame; otherwise the same bowler
stays up with the ball count incremented and the thrown rack kept. -/
theorem frame_advance_after_all_down_or_three (now : ℚ) (g : FivePinGame) (r : PinVec)
    (hg1 : g.session_expired = false) (hg2 : g.session_complete = false)
    (hg3 : g.between_games = false) (hg4 : g.hold_active = false)
    (hraised : g.raised = false)
    (hilt : g.current_bowler_index < g.bowlers.length)
    (hcf : (FivePinGame.current_bowler g).current_frame < 9)
    (hcb : (FivePinGame.current_bowler g).current_ball ≤ 2) :
    if r.sum = 5 ∨ (FivePinGame.current_bowler g).current_ball = 2 then
      (process_ball now g r).current_bowler_index = 0 ∧
        (process_ball now g r).bowlers.length = g.bowlers.length ∧
        ((process_ball now g r).bowlers.getLast?).map bowlerTurnState =
          some ((FivePinGame.current_bowler g).current_frame + 1, 0, PinVec.standing)
    else
      (process_ball now g r).current_bowler_index = g.current_bowler_index ∧
        (process_ball now g r).bowlers.length = g.bowlers.length ∧
        bowlerTurnState ((process_ball now g r).bowlers.getD
          g.current_bowler_index default) =
          ((FivePinGame.current_bowler g).current_frame,
            (FivePinGame.current_bowler g).current_ball + 1, r) := by
  unfold process_ball
  rw [if_neg (show ¬(g.session_expired = true ∨ g.session_complete = true ∨
      g.between_games = true) by simp [hg1, hg2, hg3])]
  rw [if_neg (show ¬g.hold_active = true by simp [hg4])]
  rw [if_neg (show ¬10 ≤ (FivePinGame.current_bowler g).current_frame by omega)]
  have h9 : ((FivePinGame.current_bowler g).current_frame = 9) = False :=
    eq_false (by omega)
  have hcb3 : (FivePinGame.current_bowler g).current_ball = 0 ∨
      (FivePinGame.current_bowler g).current_ball = 1 ∨
      (FivePinGame.current_bowler g).current_ball = 2 := by omega
  rcases hcb3 with hc | hc | hc
  · rw [hc]
    by_cases hk : (pins_knocked_of (FivePinGame.current_bowler g).pins_standing r).sum = 5
    · have hr : r.sum = 5 := pins_result_sum_of_knocked _ _ hk
      rw [if_pos (show r.sum = 5 ∨ 0 = 2 from Or.inl hr)]
      simp only [hk, hr, hc, h9, updFrame_pins_standing, updFrame_current_ball,
        eq_self_iff_true, Nat.reduceEqDiff, Nat.reduceLeDiff, ne_eq, not_false_eq_true,
        and_true, true_and, and_false, false_and, or_false, false_or, or_true, true_or,
        if_true, if_false, reduceIte]
      refine advance_turn now g _ ((FivePinGame.current_bowler g).current_frame)
        hilt ?_ (by omega) hraised
      simp
    · by_cases hs : r.sum = 5
      · rw [if_pos (show r.sum = 5 ∨ 0 = 2 from Or.inl hs)]
        simp only [hk, hs, hc, h9, updFrame_pins_standing, updFrame_current_ball,
          eq_self_iff_true, Nat.reduceEqDiff, Nat.reduceLeDiff, ne_eq, not_false_eq_true,
          and_true, true_and, and_false, false_and, or_false, false_or, or_true, true_or,
          if_true, if_false, reduceIte]
        refine advance_turn now g _ ((FivePinGame.current_bowler g).current_frame)
          hilt ?_ (by omega) hraised
        simp
      · rw [if_neg (show ¬(r.sum = 5 ∨ 0 = 2) by simp [hs])]
        simp only [hk, hs, hc, h9, updFrame_pins_standing, updFrame_current_ball,
          eq_self_iff_true, Nat.reduceEqDiff, Nat.reduceLeDiff, ne_eq, not_false_eq_true,
          and_true, true_and, and_false, false_and, or_false, false_or, or_true, true_or,
          if_true, if_false, reduceIte]
        refine noadvance_turn g _ _ hilt ?_
        simp [bowlerTurnState]
  · rw [hc]
    by_cases hs : r.sum = 5
    · rw [if_pos (show r.sum = 5 ∨ 1 = 2 from Or.inl hs)]
      simp only [hs, hc, h9, updFrame_pins_standing, updFrame_current_ball,
        eq_self_iff_true, Nat.reduceEqDiff, Nat.reduceLeDiff, ne_eq, not_false_eq_true,
        and_true, true_and, and_false, false_and, or_false, false_or, or_true, true_or,
        if_true, if_false, reduceIte]
      refine spare_turn now g _ ((FivePinGame.current_bowler g).current_frame)
        hilt ?_ (by omega)
      simp
    · rw [if_neg (show ¬(r.sum = 5 ∨ 1 = 2) by simp [hs])]
      simp only [hs, hc, h9, updFrame_pins_standing, updFrame_current_ball,
        eq_self_iff_true, Nat.reduceEqDiff, Nat.reduceLeDiff, ne_eq, not_false_eq_true,
        and_true, true_and, and_false, false_and, or_false, false_or, or_true, true_or,
        if_true, if_false, reduceIte]
      refine noadvance_turn g _ _ hilt ?_
      simp [bowlerTurnState]
  · rw [hc]
    rw [if_pos (show r.sum = 5 ∨ 2 = 2 from Or.inr rfl)]
    simp only [hc, h9, updFrame_pins_standing, updFrame_current_ball,
      eq_self_iff_true, Nat.reduceEqDiff, Nat.reduceLeDiff, ne_eq, not_false_eq_true,
      and_true, true_and, and_false, false_and, or_false, false_or, or_true, true_or,
      if_true, if_false, reduceIte]
    refine advance_turn now g _ ((FivePinGame.current_bowler g).current_frame)
      hilt ?_ (by omega) hraised
    simp

/-- Witness for C1 amended: a strike thrown by the first of two bowlers in
frame 0 advances the turn — index back to 0 and the last bowler reset to
frame 1, ball 0, fresh rack. -/
theorem frame_advance_after_all_down_or_three_witness :
    if (PinVec.allDown).sum = 5 ∨
        (FivePinGame.current_bowler (mkGame ["A", "B"] 0)).current_ball = 2 then
      (process_ball 0 (mkGame ["A", "B"] 0) PinVec.allDown).current_bowler_index = 0 ∧
        (process_ball 0 (mkGame ["A", "B"] 0) PinVec.allDown).bowlers.length =
          (mkGame ["A", "B"] 0).bowlers.length ∧
        ((process_ball 0 (mkGame ["A", "B"] 0) PinVec.allDown).bowlers.getLast?).map
            bowlerTurnState =
          some ((FivePinGame.current_bowler (mkGame ["A", "B"] 0)).current_frame + 1, 0,
            PinVec.standing)
    else
      (process_ball 0 (mkGame ["A", "B"] 0) PinVec.allDown).current_bowler_index =
          (mkGame ["A", "B"] 0).current_bowler_index ∧
        (process_ball 0 (mkGame ["A", "B"] 0) PinVec.allDown).bowlers.length =
          (mkGame ["A", "B"] 0).bowlers.length ∧
        bowlerTurnState ((process_ball 0 (mkGame ["A", "B"] 0) PinVec.allDown).bowlers.getD
            (mkGame ["A", "B"] 0).current_bowler_index default) =
          ((FivePinGame.current_bowler (mkGame ["A", "B"] 0)).current_frame,
            (FivePinGame.current_bowler (mkGame ["A", "B"] 0)).current_ball + 1,
            PinVec.allDown) :=
  frame_advance_after_all_down_or_three 0 (mkGame ["A", "B"] 0) PinVec.allDown
    (by decide) (by decide) (by decide) (by decide) (by decide) (by decide) (by decide)
    (by decide)
